import Mathlib

/-!
# AgroSmart AI front end (`script.js`): plant library and diagnosis flow

A shallow embedding of the plant-library filter / pagination code, of the
image-diagnosis upload flow, of the theme toggle and of the search and category
controls of `script.js`, with the properties stated about them.

Modelling conventions.

* A JavaScript string is a Lean `String`.  For strings without lone surrogates
  (the only ones a Lean `String` holds) being a substring code unit by code unit
  and being a substring code point by code point are the same thing.
* `String.prototype.toLowerCase` is a built-in of the platform, not code of the
  script.  The functions that call it take it as the argument `toLowerCase`;
  `asciiLower` is one concrete lowercasing used to evaluate them.
* A DOM element looked up with `getElementById` is an `Option`: `none` when the
  page has no such element, so that every `if (element)` guard of the script is
  kept.  For an element whose only modelled property is the CSS class
  `hidden`, the value is `some true` when the class is set.
* `visiblePlantsCount` is a `Nat`; `slice(0, n)` is `List.take n`.
* An `async` function is split at its `await`: a part that runs before the
  request is awaited and a part that runs once the request has settled, with
  what the request came to as an argument.  Other handlers may run in between.
-/

namespace AgroSmart

/-! ## Strings -/

/-- The method `s.includes(q)` on lists of characters: `q` occurs in `s` at the
current position or at a later one.  The empty `q` occurs in every `s`. -/
def includesFrom : List Char → List Char → Bool
  | [], q => q.isPrefixOf []
  | c :: s, q => q.isPrefixOf (c :: s) || includesFrom s q

/-- JavaScript `s.includes(q)`. -/
def includes (s q : String) : Bool :=
  includesFrom s.data q.data

/-- JavaScript `s.startsWith(q)`. -/
def startsWith (s q : String) : Bool :=
  q.data.isPrefixOf s.data

/-- A concrete lowercasing: the letters `A`–`Z` go to `a`–`z`, every other
character stays.  It agrees with `toLowerCase` on ASCII text. -/
def asciiLower (s : String) : String :=
  ⟨s.data.map Char.toLower⟩

/-- Truthiness of a JavaScript string: only the empty string is falsy. -/
def truthy (s : String) : Bool :=
  !s.data.isEmpty

/-- The substring relation the specification speaks of: `q` is a contiguous
part of `s`. -/
def IsSubstring (q s : String) : Prop :=
  ∃ pre suf : List Char, s.data = pre ++ q.data ++ suf

/-! ## Plant catalog -/

/-- A plant of the catalog, with the fields the filter and the card list read. -/
structure Plant where
  id : Nat
  name : String
  scientificName : String
  category : String
  description : String
  commonDiseases : List String
  deriving DecidableEq, Repr

/-- The value of `currentViewMode`. -/
inductive ViewMode where
  | grid
  | list
  deriving DecidableEq, Repr

/-- A child node of the `plants-grid` element. -/
inductive GridChild where
  /-- the `loading-grid` block of eight skeleton cards written by `loadPlants` -/
  | loadingGrid
  /-- a card built by `createPlantCard` for a plant -/
  | card (plant : Plant)
  /-- the "Failed to load plants" block written by `loadPlants` on failure -/
  | loadFailure
  deriving DecidableEq, Repr

/-- The `plants-grid` element: its class name and its children. -/
structure GridElement where
  className : String
  children : List GridChild
  deriving DecidableEq, Repr

/-- A notification appended to `toast-container` by `showToast`; `type` is the
third argument, `success` when it is left out. -/
structure Toast where
  title : String
  description : String
  type : String
  deriving DecidableEq, Repr

/-- The function `showToast(title, description, type)` on the list of
notifications shown so far. -/
def showToast (toasts : List Toast) (title description type : String) : List Toast :=
  toasts ++ [⟨title, description, type⟩]

/-- An `option` element of the category selector. -/
structure CategoryOption where
  value : String
  textContent : String
  deriving DecidableEq, Repr

/-- The module-level variables of the plant library together with the DOM
elements the library functions work on. -/
structure LibraryState where
  allPlants : List Plant
  filteredPlants : List Plant
  visiblePlantsCount : Nat
  currentViewMode : ViewMode
  /-- element `plants-grid` -/
  plantsGrid : Option GridElement
  /-- element `load-more-container`: has the class `hidden` -/
  loadMoreContainer : Option Bool
  /-- element `no-plants-message`: has the class `hidden` -/
  noPlantsMessage : Option Bool
  /-- element `category-filter`: its options -/
  categoryFilter : Option (List CategoryOption)
  /-- the notifications shown so far -/
  toasts : List Toast
  deriving DecidableEq, Repr

/-- The variable `matchesSearch` of the callback in `filterPlants`; `query` is
the lowercased search text. -/
def matchesSearch (toLowerCase : String → String) (query : String) (plant : Plant) : Bool :=
  !truthy query ||
    includes (toLowerCase plant.name) query ||
    includes (toLowerCase plant.scientificName) query ||
    includes (toLowerCase plant.description) query ||
    plant.commonDiseases.any (fun disease => includes (toLowerCase disease) query)

/-- The variable `matchesCategory` of the callback in `filterPlants`. -/
def matchesCategory (toLowerCase : String → String) (category : String) (plant : Plant) : Bool :=
  category == "all" || toLowerCase plant.category == category

/-- The element class `classList.add('hidden')` leaves, when the element exists. -/
def addHidden (e : Option Bool) : Option Bool :=
  e.map (fun _ => true)

/-- The element class `classList.remove('hidden')` leaves, when the element exists. -/
def removeHidden (e : Option Bool) : Option Bool :=
  e.map (fun _ => false)

/-- The function `renderPlants`. -/
def renderPlants (s : LibraryState) : LibraryState :=
  match s.plantsGrid with
  | none => s
  | some _ =>
    let className :=
      if s.currentViewMode = ViewMode.grid then "plants-grid" else "plants-grid list-view"
    if s.filteredPlants.length = 0 then
      { s with
        plantsGrid := some ⟨className, []⟩
        noPlantsMessage := removeHidden s.noPlantsMessage
        loadMoreContainer := addHidden s.loadMoreContainer }
    else
      let plantsToShow := s.filteredPlants.take s.visiblePlantsCount
      { s with
        plantsGrid := some ⟨className, plantsToShow.map GridChild.card⟩
        noPlantsMessage := addHidden s.noPlantsMessage
        loadMoreContainer :=
          if s.visiblePlantsCount < s.filteredPlants.length then
            removeHidden s.loadMoreContainer
          else
            addHidden s.loadMoreContainer }

/-- The function `filterPlants(searchQuery, category)`. -/
def filterPlants (toLowerCase : String → String) (searchQuery category : String)
    (s : LibraryState) : LibraryState :=
  let query := toLowerCase searchQuery
  renderPlants
    { s with
      filteredPlants :=
        s.allPlants.filter (fun plant =>
          matchesSearch toLowerCase query plant && matchesCategory toLowerCase category plant)
      visiblePlantsCount := 8 }

/-- The click handler of the `load-more-btn` button. -/
def loadMoreClick (s : LibraryState) : LibraryState :=
  renderPlants { s with visiblePlantsCount := s.visiblePlantsCount + 8 }

/-- The state after `n` clicks on the load-more button. -/
def loadMoreClicks : Nat → LibraryState → LibraryState
  | 0, s => s
  | n + 1, s => loadMoreClicks n (loadMoreClick s)

/-- The plants whose cards are children of the grid, in order; no plant when
the page has no grid. -/
def renderedPlants (s : LibraryState) : List Plant :=
  match s.plantsGrid with
  | none => []
  | some g =>
    g.children.filterMap (fun child =>
      match child with
      | GridChild.card p => some p
      | _ => none)

/-! ## Loading the catalog -/

/-- What a `fetch` call comes to: the promise rejects, or a response arrives
with a status and a body on which `response.json()` either fails with a message
or gives a value. -/
inductive FetchOutcome (α : Type) where
  | rejected (message : String)
  | response (status : Nat) (json : Except String α)

/-- The property `response.ok`: the status is in the range 200–299. -/
def responseOk (status : Nat) : Bool :=
  200 ≤ status && status ≤ 299

/-- The function `fetchFromAPI`: the parsed body, or the message of the error
it throws again. -/
def fetchFromAPI {α : Type} (outcome : FetchOutcome α) : Except String α :=
  match outcome with
  | FetchOutcome.rejected message => Except.error message
  | FetchOutcome.response status json =>
    if !responseOk status then
      Except.error ("HTTP error! status: " ++ toString status)
    else
      json

/-- The values of a list in the order of their first occurrence, each once:
the iteration order of `new Set(list)`. -/
def setValues (l : List String) : List String :=
  l.foldl (fun seen x => if x ∈ seen then seen else seen ++ [x]) []

/-- The function `populateCategoryFilter`. -/
def populateCategoryFilter (toLowerCase : String → String) (s : LibraryState) : LibraryState :=
  match s.categoryFilter with
  | none => s
  | some _ =>
    let categories := setValues (s.allPlants.map (fun plant => plant.category))
    { s with
      categoryFilter :=
        some (⟨"all", "All Categories"⟩ ::
          categories.map (fun category => ⟨toLowerCase category, category⟩)) }

/-- The part of `loadPlants` that runs before the request is awaited: the
skeleton cards are written into the grid.  Without a grid the assignment throws
and the `catch` block runs, which shows the notification and throws again. -/
def loadPlantsStart (s : LibraryState) : Except LibraryState LibraryState :=
  match s.plantsGrid with
  | none =>
    Except.error
      { s with toasts := showToast s.toasts "Error" "Failed to load plant library" "error" }
  | some g => Except.ok { s with plantsGrid := some { g with children := [GridChild.loadingGrid] } }

/-- The part of `loadPlants` that runs once the request for `/plants` has
settled with `outcome`. -/
def loadPlantsSettle (toLowerCase : String → String) (outcome : FetchOutcome (List Plant))
    (s : LibraryState) : LibraryState :=
  match fetchFromAPI outcome with
  | Except.ok plants =>
    renderPlants
      (populateCategoryFilter toLowerCase { s with allPlants := plants, filteredPlants := plants })
  | Except.error _ =>
    { s with
      toasts := showToast s.toasts "Error" "Failed to load plant library" "error"
      plantsGrid := s.plantsGrid.map (fun g => { g with children := [GridChild.loadFailure] }) }

/-- The function `loadPlants`, the request settling with `outcome` and no other
handler running in between. -/
def loadPlants (toLowerCase : String → String) (outcome : FetchOutcome (List Plant))
    (s : LibraryState) : LibraryState :=
  match loadPlantsStart s with
  | Except.error s1 => s1
  | Except.ok s1 => loadPlantsSettle toLowerCase outcome s1

/-- The load-more control is on display: its container exists and does not
carry the class `hidden`. -/
def loadMoreVisible (s : LibraryState) : Bool :=
  s.loadMoreContainer == some false

/-! ## Diagnosis flow -/

/-- A `File` object: the properties the script reads. -/
structure File where
  name : String
  /-- size in bytes -/
  size : Nat
  /-- MIME type -/
  type : String
  deriving DecidableEq, Repr

/-- The body of a successful `/api/diagnose` response; `confidence` is a whole
number of percent, `description` and `recommendations` may be missing. -/
structure DiagnosisResult where
  disease : String
  confidence : Nat
  description : Option String
  recommendations : Option (List String)
  deriving DecidableEq, Repr

/-- The `upload-zone` element: whether it carries the class `dragover`, and the
text of its `.upload-text` child when it has one. -/
structure UploadZone where
  dragover : Bool
  uploadText : Option String
  deriving DecidableEq, Repr

/-- The variable `selectedFile` of `initializeAIDiagnosis`, the DOM elements its
functions work on, the notifications shown, and the requests sent to
`/api/diagnose` so far together with the number of them that have settled. -/
structure DiagnosisState where
  selectedFile : Option File
  /-- element `upload-zone` -/
  uploadZone : Option UploadZone
  /-- element `file-input`: its `value` -/
  fileInput : Option String
  /-- element `file-controls`: has the class `hidden` -/
  fileControls : Option Bool
  /-- element `results-placeholder`: has the class `hidden` -/
  placeholder : Option Bool
  /-- element `results-loading`: has the class `hidden` -/
  loading : Option Bool
  /-- element `results-content`: has the class `hidden` -/
  content : Option Bool
  /-- element `description-card`: has the class `hidden` -/
  descriptionCard : Option Bool
  /-- element `disease-name`: its text -/
  diseaseName : Option String
  /-- element `confidence-progress`: its style width -/
  confidenceProgress : Option String
  /-- element `confidence-value`: its text -/
  confidenceValue : Option String
  /-- element `disease-description`: its text -/
  diseaseDescription : Option String
  /-- element `recommendations-list`: the texts of its items -/
  recommendationsList : Option (List String)
  /-- the notifications shown so far -/
  toasts : List Toast
  /-- the files posted to `/api/diagnose` so far, one entry for each `fetch` -/
  requestsIssued : List File
  /-- how many of those requests have settled -/
  requestsSettled : Nat
  deriving DecidableEq, Repr

/-- The function `uploadImageForDiagnosis` once its `fetch` has come to
`outcome`: the parsed body, or the message of the error it throws again. -/
def uploadImageForDiagnosis (outcome : FetchOutcome DiagnosisResult) :
    Except String DiagnosisResult :=
  match outcome with
  | FetchOutcome.rejected message => Except.error message
  | FetchOutcome.response status json =>
    if !responseOk status then
      Except.error ("HTTP error! status: " ++ toString status)
    else
      json

/-- The function `showLoading`. -/
def showLoading (s : DiagnosisState) : DiagnosisState :=
  { s with
    placeholder := addHidden s.placeholder
    loading := removeHidden s.loading
    content := addHidden s.content }

/-- The function `hideLoading`. -/
def hideLoading (s : DiagnosisState) : DiagnosisState :=
  { s with
    loading := addHidden s.loading
    placeholder := removeHidden s.placeholder }

/-- The function `hideResults`. -/
def hideResults (s : DiagnosisState) : DiagnosisState :=
  { s with
    placeholder := removeHidden s.placeholder
    content := addHidden s.content }

/-- The function `showResults(result)`. -/
def showResults (result : DiagnosisResult) (s : DiagnosisState) : DiagnosisState :=
  let percent := toString result.confidence ++ "%"
  let described :=
    match result.description with
    | some d => truthy d
    | none => false
  { s with
    placeholder := addHidden s.placeholder
    loading := addHidden s.loading
    content := removeHidden s.content
    diseaseName := s.diseaseName.map (fun _ => result.disease)
    confidenceProgress := s.confidenceProgress.map (fun _ => percent)
    confidenceValue := s.confidenceValue.map (fun _ => percent)
    diseaseDescription :=
      if described && s.descriptionCard.isSome then
        s.diseaseDescription.map (fun _ => result.description.getD "")
      else
        s.diseaseDescription
    descriptionCard :=
      if described then removeHidden s.descriptionCard else addHidden s.descriptionCard
    recommendationsList :=
      match s.recommendationsList, result.recommendations with
      | some _, some recommendations =>
        some (recommendations.map (fun recommendation => "• " ++ recommendation))
      | items, _ => items }

/-- The function `handleFileSelect(file)`. -/
def handleFileSelect (file : File) (s : DiagnosisState) : DiagnosisState :=
  if file.size > 10 * 1024 * 1024 then
    { s with
      toasts :=
        showToast s.toasts "File Too Large" "Please select an image smaller than 10MB" "error" }
  else
    hideResults
      { s with
        selectedFile := some file
        uploadZone :=
          s.uploadZone.map (fun zone =>
            { zone with uploadText := zone.uploadText.map (fun _ => file.name) })
        fileControls := removeHidden s.fileControls }

/-- The `change` handler of the file input; `files` is `e.target.files`. -/
def fileInputChange (files : List File) (s : DiagnosisState) : DiagnosisState :=
  match files with
  | [] => s
  | file :: _ => handleFileSelect file s

/-- The `drop` handler of the upload zone; `files` is `e.dataTransfer.files`. -/
def uploadZoneDrop (files : List File) (s : DiagnosisState) : DiagnosisState :=
  let s1 := { s with uploadZone := s.uploadZone.map (fun zone => { zone with dragover := false }) }
  match files with
  | [] => s1
  | file :: _ =>
    if startsWith file.type "image/" then
      handleFileSelect file s1
    else
      { s1 with toasts := showToast s1.toasts "Invalid File" "Please select an image file" "error" }

/-- The part of `analyzeImage(file)` that runs before the upload is awaited:
`showLoading`, then the one `fetch` of `uploadImageForDiagnosis`. -/
def analyzeImageStart (file : File) (s : DiagnosisState) : DiagnosisState :=
  let s1 := showLoading s
  { s1 with requestsIssued := s1.requestsIssued ++ [file] }

/-- The part of `analyzeImage` that runs once the upload has come to `outcome`. -/
def analyzeImageSettle (outcome : FetchOutcome DiagnosisResult) (s : DiagnosisState) :
    DiagnosisState :=
  let s1 := { s with requestsSettled := s.requestsSettled + 1 }
  match uploadImageForDiagnosis outcome with
  | Except.ok result =>
    let s2 := showResults result s1
    { s2 with
      toasts :=
        showToast s2.toasts "Analysis Complete"
          ("Detected: " ++ result.disease ++ " with " ++ toString result.confidence ++
            "% confidence")
          "success" }
  | Except.error message =>
    hideLoading { s1 with toasts := showToast s1.toasts "Analysis Failed" message "error" }

/-- The function `analyzeImage(file)`, the upload coming to `outcome` and no
other handler running in between. -/
def analyzeImage (file : File) (outcome : FetchOutcome DiagnosisResult) (s : DiagnosisState) :
    DiagnosisState :=
  analyzeImageSettle outcome (analyzeImageStart file s)

/-- The function `resetDiagnosis`. -/
def resetDiagnosis (s : DiagnosisState) : DiagnosisState :=
  hideLoading
    (hideResults
      { s with
        selectedFile := none
        fileInput := s.fileInput.map (fun _ => "")
        uploadZone :=
          s.uploadZone.map (fun zone =>
            { zone with
              uploadText := zone.uploadText.map (fun _ => "Click to upload or drag and drop") })
        fileControls := addHidden s.fileControls })

/-- The `click` handler of the analyze button, up to the point where the upload
is awaited. -/
def analyzeClick (s : DiagnosisState) : DiagnosisState :=
  match s.selectedFile with
  | some file => analyzeImageStart file s
  | none => s

/-- How a file reaches `handleFileSelect`. -/
inductive Origin where
  | fileInput
  | dragAndDrop
  deriving DecidableEq, Repr

/-- The handler that runs when the user hands over the single file `file`. -/
def selectFile (origin : Origin) (file : File) (s : DiagnosisState) : DiagnosisState :=
  match origin with
  | Origin.fileInput => fileInputChange [file] s
  | Origin.dragAndDrop => uploadZoneDrop [file] s

/-! ## Events of the diagnosis flow -/

/-- An event of the diagnosis flow: a file is handed over, the analyze or the
reset button is clicked, or an upload that is under way settles. -/
inductive DiagnosisEvent where
  | fileSelected (origin : Origin) (file : File)
  | analyzeClicked
  | resetClicked
  | uploadSettled (outcome : FetchOutcome DiagnosisResult)

/-- The number of uploads that have been sent and have not settled. -/
def inFlight (s : DiagnosisState) : Nat :=
  s.requestsIssued.length - s.requestsSettled

/-- The handler that runs on an event.  An upload can settle only while one is
under way. -/
def diagnosisStep (s : DiagnosisState) (event : DiagnosisEvent) : DiagnosisState :=
  match event with
  | DiagnosisEvent.fileSelected origin file => selectFile origin file s
  | DiagnosisEvent.analyzeClicked => analyzeClick s
  | DiagnosisEvent.resetClicked => resetDiagnosis s
  | DiagnosisEvent.uploadSettled outcome =>
    if inFlight s = 0 then s else analyzeImageSettle outcome s

/-- The state after a sequence of events, in order. -/
def diagnosisRun (events : List DiagnosisEvent) (s : DiagnosisState) : DiagnosisState :=
  events.foldl diagnosisStep s

/-- The state after `n` clicks on the analyze button. -/
def analyzeClicks : Nat → DiagnosisState → DiagnosisState
  | 0, s => s
  | n + 1, s => analyzeClicks n (analyzeClick s)

/-! ## Theme -/

/-- The variable `currentTheme`, the value stored under the key
`agrosmartai-ui-theme`, the class `dark` of the body and the `data-lucide`
attribute of the `.theme-icon` element. -/
structure ThemeState where
  currentTheme : String
  storedTheme : Option String
  bodyDark : Bool
  themeIcon : Option String
  deriving DecidableEq, Repr

/-- The initial value of `currentTheme`:
`localStorage.getItem('agrosmartai-ui-theme') || 'light'`. -/
def initialTheme (stored : Option String) : String :=
  match stored with
  | some value => if truthy value then value else "light"
  | none => "light"

/-- The theme state when the script has been loaded. -/
def themeAtLoad (stored : Option String) (bodyDark : Bool) (themeIcon : Option String) :
    ThemeState :=
  { currentTheme := initialTheme stored, storedTheme := stored, bodyDark := bodyDark,
    themeIcon := themeIcon }

/-- The function `updateThemeIcon`. -/
def updateThemeIcon (s : ThemeState) : ThemeState :=
  { s with
    themeIcon := s.themeIcon.map (fun _ => if s.currentTheme = "dark" then "sun" else "moon") }

/-- The function `initializeTheme`; `systemPrefersDark` is what the media query
`(prefers-color-scheme: dark)` matches. -/
def initializeTheme (systemPrefersDark : Bool) (s : ThemeState) : ThemeState :=
  let currentTheme :=
    if s.currentTheme = "system" then (if systemPrefersDark then "dark" else "light")
    else s.currentTheme
  updateThemeIcon { s with currentTheme := currentTheme, bodyDark := currentTheme == "dark" }

/-- The function `toggleTheme`. -/
def toggleTheme (s : ThemeState) : ThemeState :=
  let currentTheme := if s.currentTheme = "dark" then "light" else "dark"
  updateThemeIcon
    { s with
      currentTheme := currentTheme
      storedTheme := some currentTheme
      bodyDark := currentTheme == "dark" }

/-- The `change` handler of the media query `(prefers-color-scheme: dark)`. -/
def systemThemeChange (isDark : Bool) (s : ThemeState) : ThemeState :=
  if s.storedTheme = some "system" then
    let currentTheme := if isDark then "dark" else "light"
    updateThemeIcon { s with currentTheme := currentTheme, bodyDark := currentTheme == "dark" }
  else
    s

/-- The state after `n` calls of `toggleTheme`. -/
def toggleThemes : Nat → ThemeState → ThemeState
  | 0, s => s
  | n + 1, s => toggleThemes n (toggleTheme s)

/-! ## Search inputs and category selector -/

/-- One of the three search inputs of `initializeSearch`. -/
inductive SearchBox where
  /-- element `search-input` -/
  | header
  /-- element `mobile-search-input` -/
  | mobile
  /-- element `library-search` -/
  | library
  deriving DecidableEq, Repr

/-- The plant library together with its controls: the text of the three search
inputs, the value selected in `category-filter`, and the arguments the timer
of `debouncedSearch` is waiting to run with, if it is running. -/
structure PageState where
  library : LibraryState
  /-- element `search-input`: its value -/
  searchInput : Option String
  /-- element `mobile-search-input`: its value -/
  mobileSearchInput : Option String
  /-- element `library-search`: its value -/
  librarySearch : Option String
  /-- the value of the category selector -/
  categoryValue : String
  /-- the query of the last `debouncedSearch` call whose timer has not fired -/
  pendingSearch : Option String
  deriving DecidableEq, Repr

/-- The `input` handler of a search input, the user having brought the text of
the input `box` to `query`: the other inputs are brought to the same text and
`debouncedSearch(query)` restarts the timer. -/
def searchInputEvent (box : SearchBox) (query : String) (s : PageState) : PageState :=
  { s with
    searchInput :=
      if box = SearchBox.header then some query else s.searchInput.map (fun _ => query)
    mobileSearchInput :=
      if box = SearchBox.mobile then some query else s.mobileSearchInput.map (fun _ => query)
    librarySearch :=
      if box = SearchBox.library then some query else s.librarySearch.map (fun _ => query)
    pendingSearch := some query }

/-- The timer of `debouncedSearch` fires after 300 ms without a further call:
the callback runs `filterPlants(query)`, the category taking its default
`'all'`. -/
def searchTimerFires (toLowerCase : String → String) (s : PageState) : PageState :=
  match s.pendingSearch with
  | none => s
  | some query =>
    { s with library := filterPlants toLowerCase query "all" s.library, pendingSearch := none }

/-- The `change` handler of the category selector, the user having selected the
option with the value `category`. -/
def categoryChange (toLowerCase : String → String) (category : String) (s : PageState) :
    PageState :=
  let searchQuery :=
    match s.librarySearch with
    | some value => value
    | none => ""
  { s with
    categoryValue := category
    library := filterPlants toLowerCase searchQuery category s.library }

/-! ## Predicates of the specification -/

/-- A selection is rejected: one more notification is on the list, of the type
`error`. -/
def Rejected (s s1 : DiagnosisState) : Prop :=
  ∃ t : Toast, t.type = "error" ∧ s1.toasts = s.toasts ++ [t]

/-- The condition under which the specification (§4.2) has a selection
rejected: the file is larger than 10 MiB, or it was dropped and its MIME type
does not start with `image/`. -/
def RejectCondition (origin : Origin) (file : File) : Prop :=
  file.size > 10 * 1024 * 1024 ∨ (origin = Origin.dragAndDrop ∧ startsWith file.type "image/" = false)

/-- The match predicate of the specification (§4.1) for query `q` and category
`c`: the query is empty or its lowercase form is a substring of the lowercase
form of the name, the scientific name, the description or some entry of the
common diseases; and the category is `all` or equals the lowercase form of the
plant's category. -/
def SpecMatch (toLowerCase : String → String) (q c : String) (p : Plant) : Prop :=
  (q = "" ∨
    IsSubstring (toLowerCase q) (toLowerCase p.name) ∨
    IsSubstring (toLowerCase q) (toLowerCase p.scientificName) ∨
    IsSubstring (toLowerCase q) (toLowerCase p.description) ∨
    ∃ d ∈ p.commonDiseases, IsSubstring (toLowerCase q) (toLowerCase d)) ∧
  (c = "all" ∨ toLowerCase p.category = c)

/-- The distinct values of a list in the order in which each is first seen, in
the words of the specification (§4.3): the head comes first, followed by the
distinct values of the rest that differ from it. -/
def firstOccurrences : List String → List String
  | [] => []
  | x :: xs => x :: (firstOccurrences xs).filter (fun y => y != x)

/-! ## Sample data -/

/-- A plant that mentions tomato only in its common diseases. -/
def potato : Plant :=
  { id := 1, name := "Potato", scientificName := "Solanum tuberosum", category := "Vegetable",
    description := "A starchy tuber.", commonDiseases := ["Tomato Blight"] }

/-- A plant of the category `Grain`. -/
def wheat : Plant :=
  { id := 2, name := "Wheat", scientificName := "Triticum aestivum", category := "Grain",
    description := "A cereal.", commonDiseases := ["Rust"] }

/-- A page with all library elements, the catalog `plants` loaded and shown in
full, and the cursor at `cursor`. -/
def libraryWith (plants : List Plant) (cursor : Nat) : LibraryState :=
  { allPlants := plants, filteredPlants := plants, visiblePlantsCount := cursor,
    currentViewMode := ViewMode.grid,
    plantsGrid := some { className := "plants-grid", children := [] },
    loadMoreContainer := some true, noPlantsMessage := some true,
    categoryFilter := some [], toasts := [] }

/-- A catalog of `n` plants with the ids `0 … n-1`, all of the category `Grain`. -/
def numberedPlants (n : Nat) : List Plant :=
  (List.range n).map (fun i => { wheat with id := i })

/-- A page with all diagnosis elements, in the state `result_shown`: an earlier
file is selected and its result is on display. -/
def resultShown : DiagnosisState :=
  { selectedFile := some { name := "old.png", size := 2048, type := "image/png" },
    uploadZone := some { dragover := true, uploadText := some "old.png" },
    fileInput := some "old.png", fileControls := some false,
    placeholder := some true, loading := some true, content := some false,
    descriptionCard := some false, diseaseName := some "Rust",
    confidenceProgress := some "91%", confidenceValue := some "91%",
    diseaseDescription := some "A fungal disease.", recommendationsList := some ["• Prune"],
    toasts := [], requestsIssued := [{ name := "old.png", size := 2048, type := "image/png" }],
    requestsSettled := 1 }

/-- An image of one mebibyte. -/
def leafPhoto : File :=
  { name := "leaf.jpg", size := 1048576, type := "image/jpeg" }

/-- A diagnosis as the server returns it. -/
def blightResult : DiagnosisResult :=
  { disease := "Late Blight", confidence := 87, description := some "Water mould.",
    recommendations := some ["Remove infected leaves"] }

/-- A page with all diagnosis elements in the state `idle`: no file, no result. -/
def idlePage : DiagnosisState :=
  { selectedFile := none,
    uploadZone := some { dragover := false, uploadText := some "Click to upload or drag and drop" },
    fileInput := some "", fileControls := some true,
    placeholder := some false, loading := some true, content := some true,
    descriptionCard := some true, diseaseName := some "",
    confidenceProgress := some "", confidenceValue := some "",
    diseaseDescription := some "", recommendationsList := some [],
    toasts := [], requestsIssued := [], requestsSettled := 0 }

/-- A page whose catalog is `plants`, with the three search inputs empty, the
category `category` selected and no search timer running. -/
def pageWith (plants : List Plant) (category : String) : PageState :=
  { library := libraryWith plants 8, searchInput := some "", mobileSearchInput := some "",
    librarySearch := some "", categoryValue := category, pendingSearch := none }

/-! ## Properties of the plant library -/

theorem includesFrom_iff (s q : List Char) : includesFrom s q = true ↔ q <:+: s := by
  induction s with
  | nil =>
    cases q with
    | nil => simp [includesFrom]
    | cons a q => simp [includesFrom, List.isPrefixOf]
  | cons c s ih =>
    rw [includesFrom, Bool.or_eq_true, ih, List.isPrefixOf_iff_prefix, List.infix_cons_iff]

theorem includes_iff (s q : String) : includes s q = true ↔ IsSubstring q s := by
  unfold includes IsSubstring
  rw [includesFrom_iff]
  constructor
  · rintro ⟨pre, suf, h⟩
    exact ⟨pre, suf, h.symm⟩
  · rintro ⟨pre, suf, h⟩
    exact ⟨pre, suf, h.symm⟩

theorem includes_empty (s : String) : includes s "" = true := by
  rw [includes_iff]
  exact ⟨[], s.data, by simp⟩

theorem truthy_eq_false_iff (s : String) : truthy s = false ↔ s = "" := by
  unfold truthy
  rcases s with ⟨l⟩
  cases l <;> simp [String.ext_iff]

@[simp] theorem renderPlants_allPlants (s : LibraryState) :
    (renderPlants s).allPlants = s.allPlants := by
  unfold renderPlants
  split
  · rfl
  · dsimp only
    split <;> rfl

@[simp] theorem renderPlants_filteredPlants (s : LibraryState) :
    (renderPlants s).filteredPlants = s.filteredPlants := by
  unfold renderPlants
  split
  · rfl
  · dsimp only
    split <;> rfl

@[simp] theorem renderPlants_visiblePlantsCount (s : LibraryState) :
    (renderPlants s).visiblePlantsCount = s.visiblePlantsCount := by
  unfold renderPlants
  split
  · rfl
  · dsimp only
    split <;> rfl

@[simp] theorem renderPlants_plantsGrid_isSome (s : LibraryState) :
    (renderPlants s).plantsGrid.isSome = s.plantsGrid.isSome := by
  unfold renderPlants
  split
  · rfl
  · rename_i g h
    dsimp only
    split <;> simp [h]

theorem filterMap_card (l : List Plant) :
    (l.map GridChild.card).filterMap
      (fun child => match child with
        | GridChild.card p => some p
        | _ => none) = l := by
  induction l with
  | nil => rfl
  | cons a l ih => simp [List.filterMap_cons, ih]

theorem renderedPlants_renderPlants (s : LibraryState) (h : s.plantsGrid.isSome = true) :
    renderedPlants (renderPlants s) = s.filteredPlants.take s.visiblePlantsCount := by
  unfold renderPlants
  split
  · rename_i h0
    simp [h0] at h
  · dsimp only
    split
    · rename_i hlen
      have : s.filteredPlants = [] := List.length_eq_zero.mp hlen
      simp [renderedPlants, this]
    · simp only [renderedPlants]
      exact filterMap_card _

/-- The list `filterPlants` stores is the catalog filtered by the two tests. -/
theorem filterPlants_filteredPlants (toLowerCase : String → String) (q c : String)
    (s : LibraryState) :
    (filterPlants toLowerCase q c s).filteredPlants =
      s.allPlants.filter (fun plant =>
        matchesSearch toLowerCase (toLowerCase q) plant && matchesCategory toLowerCase c plant) := by
  simp [filterPlants]

/-- The search test of the code against the search part of the specification's
predicate. -/
theorem matchesSearch_iff (toLowerCase : String → String) (hempty : toLowerCase "" = "")
    (q : String) (p : Plant) :
    matchesSearch toLowerCase (toLowerCase q) p = true ↔
      (q = "" ∨
        IsSubstring (toLowerCase q) (toLowerCase p.name) ∨
        IsSubstring (toLowerCase q) (toLowerCase p.scientificName) ∨
        IsSubstring (toLowerCase q) (toLowerCase p.description) ∨
        ∃ d ∈ p.commonDiseases, IsSubstring (toLowerCase q) (toLowerCase d)) := by
  simp only [matchesSearch, Bool.or_eq_true, Bool.not_eq_true', truthy_eq_false_iff,
    includes_iff, List.any_eq_true]
  constructor
  · rintro ((((h | h) | h) | h) | h)
    · right; left
      rw [h]
      exact (includes_iff _ _).mp (includes_empty _)
    · exact Or.inr (Or.inl h)
    · exact Or.inr (Or.inr (Or.inl h))
    · exact Or.inr (Or.inr (Or.inr (Or.inl h)))
    · exact Or.inr (Or.inr (Or.inr (Or.inr h)))
  · rintro (h | h | h | h | h)
    · left; left; left; left
      rw [h, hempty]
    · exact Or.inl (Or.inl (Or.inl (Or.inr h)))
    · exact Or.inl (Or.inl (Or.inr h))
    · exact Or.inl (Or.inr h)
    · exact Or.inr h

/-- The category test of the code against the category part of the
specification's predicate. -/
theorem matchesCategory_iff (toLowerCase : String → String) (c : String) (p : Plant) :
    matchesCategory toLowerCase c p = true ↔ (c = "all" ∨ toLowerCase p.category = c) := by
  simp [matchesCategory]

/-- With a grid on the page, `renderPlants` sets the class of the load-more
container by the test `visiblePlantsCount < filteredPlants.length`. -/
theorem renderPlants_loadMoreContainer (s : LibraryState) (hgrid : s.plantsGrid.isSome = true) :
    (renderPlants s).loadMoreContainer =
      if s.visiblePlantsCount < s.filteredPlants.length then removeHidden s.loadMoreContainer
      else addHidden s.loadMoreContainer := by
  unfold renderPlants
  split
  · rename_i h0
    simp [h0] at hgrid
  · dsimp only
    split
    · rename_i hlen
      simp [hlen]
    · rfl

@[simp] theorem renderPlants_loadMoreContainer_isSome (s : LibraryState) :
    (renderPlants s).loadMoreContainer.isSome = s.loadMoreContainer.isSome := by
  unfold renderPlants
  split
  · rfl
  · dsimp only
    split
    · simp [addHidden]
    · dsimp only
      split <;> simp [addHidden, removeHidden]

/-- After `renderPlants`, on a page with the grid and the load-more container,
the control shows exactly when the cursor is below the number of results. -/
theorem loadMoreVisible_renderPlants (s : LibraryState) (hgrid : s.plantsGrid.isSome = true)
    (hmore : s.loadMoreContainer.isSome = true) :
    (loadMoreVisible (renderPlants s) = true ↔ s.visiblePlantsCount < s.filteredPlants.length) ∧
    ((renderPlants s).loadMoreContainer = some true ↔
      ¬ s.visiblePlantsCount < s.filteredPlants.length) := by
  rw [loadMoreVisible, renderPlants_loadMoreContainer s hgrid]
  cases hm : s.loadMoreContainer with
  | none => simp [hm] at hmore
  | some b =>
    by_cases h : s.visiblePlantsCount < s.filteredPlants.length
    · simp [h, removeHidden]
    · simp [h, addHidden]

/-- The elements stay on the page through `filterPlants`, and the cursor is 8. -/
theorem filterPlants_elements (toLowerCase : String → String) (q c : String) (s : LibraryState) :
    (filterPlants toLowerCase q c s).plantsGrid.isSome = s.plantsGrid.isSome ∧
    (filterPlants toLowerCase q c s).loadMoreContainer.isSome = s.loadMoreContainer.isSome ∧
    (filterPlants toLowerCase q c s).visiblePlantsCount = 8 := by
  simp [filterPlants]

/-- The load-more control after `filterPlants`. -/
theorem loadMoreVisible_filterPlants (toLowerCase : String → String) (q c : String)
    (s : LibraryState) (hgrid : s.plantsGrid.isSome = true)
    (hmore : s.loadMoreContainer.isSome = true) :
    (loadMoreVisible (filterPlants toLowerCase q c s) = true ↔
      8 < (filterPlants toLowerCase q c s).filteredPlants.length) ∧
    ((filterPlants toLowerCase q c s).loadMoreContainer = some true ↔
      ¬ 8 < (filterPlants toLowerCase q c s).filteredPlants.length) := by
  have h := loadMoreVisible_renderPlants
    { s with
      filteredPlants :=
        s.allPlants.filter (fun plant =>
          matchesSearch toLowerCase (toLowerCase q) plant &&
            matchesCategory toLowerCase c plant)
      visiblePlantsCount := 8 } hgrid hmore
  rw [filterPlants_filteredPlants]
  exact h

/-- The load-more control after a click on it. -/
theorem loadMoreContainer_loadMoreClick (s : LibraryState) (hgrid : s.plantsGrid.isSome = true)
    (hmore : s.loadMoreContainer.isSome = true) :
    (loadMoreClick s).loadMoreContainer = some true ↔
      ¬ s.visiblePlantsCount + 8 < s.filteredPlants.length :=
  (loadMoreVisible_renderPlants { s with visiblePlantsCount := s.visiblePlantsCount + 8 }
    hgrid hmore).2

/-- The empty query with the category `all` keeps the whole catalog. -/
theorem filterPlants_empty_all (toLowerCase : String → String) (hempty : toLowerCase "" = "")
    (s : LibraryState) : (filterPlants toLowerCase "" "all" s).filteredPlants = s.allPlants := by
  rw [filterPlants_filteredPlants, List.filter_eq_self]
  intro p _
  rw [Bool.and_eq_true, matchesSearch_iff toLowerCase hempty, matchesCategory_iff]
  exact ⟨Or.inl rfl, Or.inl rfl⟩

/-- The cards after `filterPlants` are the first eight results. -/
theorem renderedPlants_filterPlants (toLowerCase : String → String) (q c : String)
    (s : LibraryState) (hgrid : s.plantsGrid.isSome = true) :
    renderedPlants (filterPlants toLowerCase q c s) =
      (filterPlants toLowerCase q c s).filteredPlants.take 8 := by
  rw [filterPlants_filteredPlants]
  show renderedPlants (renderPlants _) = _
  refine renderedPlants_renderPlants _ ?_
  exact hgrid

/-- The cards after a click on load-more. -/
theorem renderedPlants_loadMoreClick (s : LibraryState) (h : s.plantsGrid.isSome = true) :
    renderedPlants (loadMoreClick s) = s.filteredPlants.take (s.visiblePlantsCount + 8) := by
  show renderedPlants (renderPlants _) = _
  refine renderedPlants_renderPlants _ ?_
  exact h

/-- Taking `min k length` elements is taking `k` elements. -/
theorem take_min_length {α : Type} (l : List α) (k : Nat) :
    l.take (min k l.length) = l.take k := by
  rcases Nat.le_total k l.length with h | h
  · rw [Nat.min_eq_left h]
  · rw [Nat.min_eq_right h, List.take_length, List.take_of_length_le h]

/-- One click on load-more moves the cursor by eight and keeps the lists. -/
theorem loadMoreClick_fields (s : LibraryState) :
    (loadMoreClick s).visiblePlantsCount = s.visiblePlantsCount + 8 ∧
    (loadMoreClick s).filteredPlants = s.filteredPlants ∧
    (loadMoreClick s).allPlants = s.allPlants ∧
    (loadMoreClick s).plantsGrid.isSome = s.plantsGrid.isSome := by
  simp [loadMoreClick]

/-- Clicks on load-more move the cursor by eight each and keep the two lists;
when the grid showed the plants up to the cursor before, it does so after. -/
theorem loadMoreClicks_fields (n : Nat) (s : LibraryState) :
    (loadMoreClicks n s).visiblePlantsCount = s.visiblePlantsCount + 8 * n ∧
    (loadMoreClicks n s).filteredPlants = s.filteredPlants ∧
    (loadMoreClicks n s).allPlants = s.allPlants ∧
    (s.plantsGrid.isSome = true →
      renderedPlants s = s.filteredPlants.take s.visiblePlantsCount →
      renderedPlants (loadMoreClicks n s) =
        s.filteredPlants.take (s.visiblePlantsCount + 8 * n)) := by
  induction n generalizing s with
  | zero => exact ⟨rfl, rfl, rfl, fun _ h => h⟩
  | succ n ih =>
    obtain ⟨h1, h2, h3, h4⟩ := ih (loadMoreClick s)
    obtain ⟨c1, c2, c3, c4⟩ := loadMoreClick_fields s
    simp only [loadMoreClicks]
    refine ⟨by rw [h1, c1]; ring, by rw [h2, c2], by rw [h3, c3], fun hgrid _ => ?_⟩
    rw [h4 (by rw [c4]; exact hgrid) (by rw [renderedPlants_loadMoreClick s hgrid, c2, c1]), c2, c1]
    congr 1
    ring

/-- The state after a `loadPlants` whose request succeeds with `plants`. -/
theorem loadPlants_ok (toLowerCase : String → String) (outcome : FetchOutcome (List Plant))
    (plants : List Plant) (s : LibraryState) (hgrid : s.plantsGrid.isSome = true)
    (hok : fetchFromAPI outcome = Except.ok plants) :
    (loadPlants toLowerCase outcome s).allPlants = plants ∧
    (loadPlants toLowerCase outcome s).filteredPlants = plants ∧
    (loadPlants toLowerCase outcome s).visiblePlantsCount = s.visiblePlantsCount ∧
    (loadPlants toLowerCase outcome s).plantsGrid.isSome = true ∧
    renderedPlants (loadPlants toLowerCase outcome s) = plants.take s.visiblePlantsCount := by
  cases hg : s.plantsGrid with
  | none => simp [hg] at hgrid
  | some g =>
    have hpop : ∀ t : LibraryState,
        (populateCategoryFilter toLowerCase t).allPlants = t.allPlants ∧
        (populateCategoryFilter toLowerCase t).filteredPlants = t.filteredPlants ∧
        (populateCategoryFilter toLowerCase t).visiblePlantsCount = t.visiblePlantsCount ∧
        (populateCategoryFilter toLowerCase t).plantsGrid = t.plantsGrid := by
      intro t
      unfold populateCategoryFilter
      split <;> simp
    simp only [loadPlants, loadPlantsStart, hg, loadPlantsSettle, hok]
    refine ⟨?_, ?_, ?_, ?_, ?_⟩
    · rw [renderPlants_allPlants, (hpop _).1]
    · rw [renderPlants_filteredPlants, (hpop _).2.1]
    · rw [renderPlants_visiblePlantsCount, (hpop _).2.2.1]
    · rw [renderPlants_plantsGrid_isSome, (hpop _).2.2.2]; rfl
    · rw [renderedPlants_renderPlants _ (by rw [(hpop _).2.2.2]; rfl), (hpop _).2.1, (hpop _).2.2.1]

/-! ## The claims about the plant library -/

/-- C1: after `filterPlants(q, c)` a plant of `allPlants` is in `filteredPlants`
if and only if it satisfies the match predicate of the specification: the query
is empty or its lowercase form is a substring of the lowercase name, scientific
name, description or of some common disease, and the category is `all` or
equals the lowercase category of the plant.  This holds for every category
argument, among them `all` and the lowercased values the selector supplies.
The query `tomato` with the category `all` keeps every plant that lists
`Tomato Blight` among its common diseases, and the empty query with the
category `all` keeps the whole catalog.  Of the built-in `toLowerCase` the
proof uses that it maps the empty string to itself, `tomato` to itself and
`Tomato Blight` to `tomato blight`. -/
theorem filterPlants_mem_iff_specMatch (toLowerCase : String → String)
    (hempty : toLowerCase "" = "") (htomato : toLowerCase "tomato" = "tomato")
    (hblight : toLowerCase "Tomato Blight" = "tomato blight") (s : LibraryState) :
    (∀ (q c : String) (p : Plant), p ∈ s.allPlants →
      (p ∈ (filterPlants toLowerCase q c s).filteredPlants ↔ SpecMatch toLowerCase q c p)) ∧
    (∀ p : Plant, p ∈ s.allPlants → "Tomato Blight" ∈ p.commonDiseases →
      p ∈ (filterPlants toLowerCase "tomato" "all" s).filteredPlants) ∧
    (filterPlants toLowerCase "" "all" s).filteredPlants = s.allPlants := by
  have key : ∀ (q c : String) (p : Plant), p ∈ s.allPlants →
      (p ∈ (filterPlants toLowerCase q c s).filteredPlants ↔ SpecMatch toLowerCase q c p) := by
    intro q c p hp
    rw [filterPlants_filteredPlants, List.mem_filter, Bool.and_eq_true,
      matchesSearch_iff toLowerCase hempty, matchesCategory_iff]
    exact ⟨fun h => h.2, fun h => ⟨hp, h⟩⟩
  refine ⟨key, ?_, ?_⟩
  · intro p hp hd
    rw [key _ _ p hp]
    refine ⟨Or.inr (Or.inr (Or.inr (Or.inr ⟨"Tomato Blight", hd, ?_⟩))), Or.inl rfl⟩
    rw [htomato, hblight]
    exact ⟨[], " blight".data, rfl⟩
  · rw [filterPlants_filteredPlants, List.filter_eq_self]
    intro p _
    rw [Bool.and_eq_true, matchesSearch_iff toLowerCase hempty, matchesCategory_iff]
    exact ⟨Or.inl rfl, Or.inl rfl⟩

/-- The statement above at a concrete page. -/
theorem filterPlants_mem_iff_specMatch_witness :
    potato ∈ (filterPlants asciiLower "tomato" "all" (libraryWith [wheat, potato] 24)).filteredPlants ∧
    wheat ∉ (filterPlants asciiLower "tomato" "all" (libraryWith [wheat, potato] 24)).filteredPlants ∧
    (filterPlants asciiLower "" "all" (libraryWith [wheat, potato] 24)).filteredPlants =
      [wheat, potato] :=
  ⟨(filterPlants_mem_iff_specMatch asciiLower (by decide) (by decide) (by decide)
      (libraryWith [wheat, potato] 24)).2.1 potato (by decide) (by decide),
    by decide,
    (filterPlants_mem_iff_specMatch asciiLower (by decide) (by decide) (by decide)
      (libraryWith [wheat, potato] 24)).2.2⟩

/-- C2: the `filteredPlants` produced by `filterPlants(q, c)` is a subsequence of
`allPlants`: same relative order, only plants of `allPlants`, none more often
than in `allPlants`; and `allPlants` is the same list after the call. -/
theorem filterPlants_sublist (toLowerCase : String → String) (q c : String) (s : LibraryState) :
    List.Sublist (filterPlants toLowerCase q c s).filteredPlants s.allPlants ∧
    (∀ p : Plant, p ∈ (filterPlants toLowerCase q c s).filteredPlants → p ∈ s.allPlants) ∧
    (∀ p : Plant, (filterPlants toLowerCase q c s).filteredPlants.count p ≤ s.allPlants.count p) ∧
    (filterPlants toLowerCase q c s).allPlants = s.allPlants := by
  have hsub : List.Sublist (filterPlants toLowerCase q c s).filteredPlants s.allPlants := by
    rw [filterPlants_filteredPlants]
    exact List.filter_sublist _
  exact ⟨hsub, fun p hp => hsub.subset hp, fun p => hsub.count_le p, by simp [filterPlants]⟩

/-- C3: whatever `visiblePlantsCount` was before, after `filterPlants(q, c)` it
is 8, and on a page with the plants grid the cards rendered are the first eight
results, so their number is `min 8 filteredPlants.length`. -/
theorem filterPlants_resets_cursor (toLowerCase : String → String) (q c : String)
    (s : LibraryState) :
    (filterPlants toLowerCase q c s).visiblePlantsCount = 8 ∧
    (s.plantsGrid.isSome = true →
      renderedPlants (filterPlants toLowerCase q c s) =
        (filterPlants toLowerCase q c s).filteredPlants.take 8 ∧
      (renderedPlants (filterPlants toLowerCase q c s)).length =
        min 8 (filterPlants toLowerCase q c s).filteredPlants.length) := by
  refine ⟨by simp [filterPlants], fun hgrid => ?_⟩
  have h : renderedPlants (filterPlants toLowerCase q c s) =
      (filterPlants toLowerCase q c s).filteredPlants.take 8 := by
    rw [filterPlants_filteredPlants]
    show renderedPlants (renderPlants _) = _
    refine renderedPlants_renderPlants _ ?_
    exact hgrid
  exact ⟨h, by rw [h, List.length_take]⟩

/-- The statement above at a concrete page. -/
theorem filterPlants_resets_cursor_witness :
    (filterPlants asciiLower "" "all" (libraryWith (numberedPlants 10) 24)).visiblePlantsCount = 8 ∧
    (renderedPlants (filterPlants asciiLower "" "all" (libraryWith (numberedPlants 10) 24))).length
      = min 8 (filterPlants asciiLower "" "all"
          (libraryWith (numberedPlants 10) 24)).filteredPlants.length :=
  ⟨(filterPlants_resets_cursor asciiLower "" "all" (libraryWith (numberedPlants 10) 24)).1,
    ((filterPlants_resets_cursor asciiLower "" "all" (libraryWith (numberedPlants 10) 24)).2
      (by decide)).2⟩

/-- C4: from the state right after `filterPlants(q, c)`, and from the state
right after a `loadPlants` that succeeded on a page with the plants grid and
the cursor at its initial value 8, `n` clicks on load-more with no filter call
in between leave `visiblePlantsCount = 8 + 8 * n` and `filteredPlants` the list
it was before the clicks, and on a page with the plants grid the cards rendered
are the first `min (8 + 8 * n) filteredPlants.length` plants of
`filteredPlants`, in order. -/
theorem loadMoreClicks_after_filter (toLowerCase : String → String) (q c : String)
    (outcome : FetchOutcome (List Plant)) (plants : List Plant) (s : LibraryState) (n : Nat) :
    ((loadMoreClicks n (filterPlants toLowerCase q c s)).visiblePlantsCount = 8 + 8 * n ∧
      (loadMoreClicks n (filterPlants toLowerCase q c s)).filteredPlants =
        (filterPlants toLowerCase q c s).filteredPlants ∧
      (s.plantsGrid.isSome = true →
        renderedPlants (loadMoreClicks n (filterPlants toLowerCase q c s)) =
          (filterPlants toLowerCase q c s).filteredPlants.take
            (min (8 + 8 * n) (filterPlants toLowerCase q c s).filteredPlants.length))) ∧
    (s.plantsGrid.isSome = true → s.visiblePlantsCount = 8 →
      fetchFromAPI outcome = Except.ok plants →
      (loadMoreClicks n (loadPlants toLowerCase outcome s)).visiblePlantsCount = 8 + 8 * n ∧
      (loadMoreClicks n (loadPlants toLowerCase outcome s)).filteredPlants =
        (loadPlants toLowerCase outcome s).filteredPlants ∧
      renderedPlants (loadMoreClicks n (loadPlants toLowerCase outcome s)) =
        (loadPlants toLowerCase outcome s).filteredPlants.take
          (min (8 + 8 * n) (loadPlants toLowerCase outcome s).filteredPlants.length)) := by
  constructor
  · obtain ⟨h1, h2, _, h4⟩ := loadMoreClicks_fields n (filterPlants toLowerCase q c s)
    obtain ⟨e1, _, e3⟩ := filterPlants_elements toLowerCase q c s
    refine ⟨by rw [h1, e3], h2, fun hgrid => ?_⟩
    rw [take_min_length, h4 (e1.trans hgrid)
      (by rw [e3]; exact renderedPlants_filterPlants toLowerCase q c s hgrid), e3]
  · intro hgrid h8 hok
    obtain ⟨_, _, l3, l4, l5⟩ := loadPlants_ok toLowerCase outcome plants s hgrid hok
    obtain ⟨h1, h2, _, h4⟩ := loadMoreClicks_fields n (loadPlants toLowerCase outcome s)
    have l2 := (loadPlants_ok toLowerCase outcome plants s hgrid hok).2.1
    refine ⟨by rw [h1, l3, h8], h2, ?_⟩
    rw [take_min_length, h4 l4 (by rw [l5, l2, l3]), l3, h8]

/-- The statement above at a catalog of ten plants and at a loaded catalog. -/
theorem loadMoreClicks_after_filter_witness :
    (loadMoreClicks 1 (filterPlants asciiLower "" "all"
      (libraryWith (numberedPlants 10) 24))).visiblePlantsCount = 8 + 8 * 1 ∧
    renderedPlants (loadMoreClicks 1 (filterPlants asciiLower "" "all"
      (libraryWith (numberedPlants 10) 24))) =
        (filterPlants asciiLower "" "all" (libraryWith (numberedPlants 10) 24)).filteredPlants.take
          (min (8 + 8 * 1) (filterPlants asciiLower "" "all"
            (libraryWith (numberedPlants 10) 24)).filteredPlants.length) ∧
    (loadMoreClicks 2 (loadPlants asciiLower (FetchOutcome.response 200 (Except.ok [wheat, potato]))
      (libraryWith [] 8))).visiblePlantsCount = 8 + 8 * 2 :=
  ⟨(loadMoreClicks_after_filter asciiLower "" "all" (FetchOutcome.rejected "") []
      (libraryWith (numberedPlants 10) 24) 1).1.1,
    (loadMoreClicks_after_filter asciiLower "" "all" (FetchOutcome.rejected "") []
      (libraryWith (numberedPlants 10) 24) 1).1.2.2 (by decide),
    ((loadMoreClicks_after_filter asciiLower "" "all"
      (FetchOutcome.response 200 (Except.ok [wheat, potato])) [wheat, potato]
      (libraryWith [] 8) 2).2 (by decide) (by decide) rfl).1⟩

/-- C5: after `renderPlants`, on a page with the plants grid and the load-more
container, the load-more control shows if and only if
`visiblePlantsCount < filteredPlants.length`; it is hidden for an empty result
and when the number of results equals the cursor.  For a catalog of ten plants,
the empty query and the category `all` give all ten, eight cards and a visible
control, and one click on load-more gives ten cards and a hidden control.  A
result of exactly eight plants hides the control, and so does a result of
exactly sixteen after one click. -/
theorem loadMore_visible_iff_cursor_lt (toLowerCase : String → String)
    (hempty : toLowerCase "" = "") (s : LibraryState)
    (hgrid : s.plantsGrid.isSome = true) (hmore : s.loadMoreContainer.isSome = true) :
    (loadMoreVisible (renderPlants s) = true ↔ s.visiblePlantsCount < s.filteredPlants.length) ∧
    (s.filteredPlants = [] → (renderPlants s).loadMoreContainer = some true) ∧
    (s.filteredPlants.length = s.visiblePlantsCount →
      (renderPlants s).loadMoreContainer = some true) ∧
    (s.allPlants.length = 10 →
      (filterPlants toLowerCase "" "all" s).filteredPlants = s.allPlants ∧
      (renderedPlants (filterPlants toLowerCase "" "all" s)).length = 8 ∧
      loadMoreVisible (filterPlants toLowerCase "" "all" s) = true ∧
      (renderedPlants (loadMoreClick (filterPlants toLowerCase "" "all" s))).length = 10 ∧
      (loadMoreClick (filterPlants toLowerCase "" "all" s)).loadMoreContainer = some true) ∧
    (∀ q c : String, (filterPlants toLowerCase q c s).filteredPlants.length = 8 →
      (filterPlants toLowerCase q c s).loadMoreContainer = some true) ∧
    (∀ q c : String, (filterPlants toLowerCase q c s).filteredPlants.length = 16 →
      (loadMoreClick (filterPlants toLowerCase q c s)).loadMoreContainer = some true) := by
  have hr := loadMoreVisible_renderPlants s hgrid hmore
  have hel := fun q c => filterPlants_elements toLowerCase q c s
  have hg1 : ∀ q c, (filterPlants toLowerCase q c s).plantsGrid.isSome = true :=
    fun q c => (hel q c).1.trans hgrid
  have hm1 : ∀ q c, (filterPlants toLowerCase q c s).loadMoreContainer.isSome = true :=
    fun q c => (hel q c).2.1.trans hmore
  refine ⟨hr.1, ?_, ?_, ?_, ?_, ?_⟩
  · intro h
    rw [hr.2, h]
    simp
  · intro h
    rw [hr.2, h]
    exact Nat.lt_irrefl _
  · intro h10
    have hf := filterPlants_empty_all toLowerCase hempty s
    have hlen : (filterPlants toLowerCase "" "all" s).filteredPlants.length = 10 := by
      rw [hf, h10]
    refine ⟨hf, ?_, ?_, ?_, ?_⟩
    · rw [renderedPlants_filterPlants _ _ _ _ hgrid, List.length_take, hlen]
      rfl
    · rw [(loadMoreVisible_filterPlants toLowerCase "" "all" s hgrid hmore).1, hlen]
      decide
    · rw [renderedPlants_loadMoreClick _ (hg1 _ _), List.length_take, hlen, (hel _ _).2.2]
      rfl
    · rw [loadMoreContainer_loadMoreClick _ (hg1 _ _) (hm1 _ _), hlen, (hel _ _).2.2]
      decide
  · intro q c h8
    rw [(loadMoreVisible_filterPlants toLowerCase q c s hgrid hmore).2, h8]
    decide
  · intro q c h16
    rw [loadMoreContainer_loadMoreClick _ (hg1 _ _) (hm1 _ _), h16, (hel _ _).2.2]
    decide

/-- The statement above at a concrete page. -/
theorem loadMore_visible_iff_cursor_lt_witness :
    loadMoreVisible (filterPlants asciiLower "" "all" (libraryWith (numberedPlants 10) 8)) = true ∧
    (renderedPlants (filterPlants asciiLower "" "all"
      (libraryWith (numberedPlants 10) 8))).length = 8 ∧
    (loadMoreClick (filterPlants asciiLower "" "all"
      (libraryWith (numberedPlants 10) 8))).loadMoreContainer = some true :=
  ⟨((loadMore_visible_iff_cursor_lt asciiLower (by decide) (libraryWith (numberedPlants 10) 8)
      (by decide) (by decide)).2.2.2.1 (by decide)).2.2.1,
    ((loadMore_visible_iff_cursor_lt asciiLower (by decide) (libraryWith (numberedPlants 10) 8)
      (by decide) (by decide)).2.2.2.1 (by decide)).2.1,
    ((loadMore_visible_iff_cursor_lt asciiLower (by decide) (libraryWith (numberedPlants 10) 8)
      (by decide) (by decide)).2.2.2.1 (by decide)).2.2.2.2⟩

/-! ## Properties of the diagnosis flow -/

/-- A handler that shows no notification has not rejected. -/
theorem not_rejected_of_toasts_eq (s s1 : DiagnosisState) (h : s1.toasts = s.toasts) :
    ¬ Rejected s s1 := by
  rintro ⟨t, _, ht⟩
  rw [h] at ht
  have := congrArg List.length ht
  simp at this

/-- A handler that shows one notification of the type `error` has rejected. -/
theorem rejected_of_showToast (s s1 : DiagnosisState) (title description : String)
    (h : s1.toasts = showToast s.toasts title description "error") : Rejected s s1 :=
  ⟨⟨title, description, "error"⟩, rfl, h⟩

/-- What `handleFileSelect` does with a file above the size limit. -/
theorem handleFileSelect_large (file : File) (s : DiagnosisState)
    (h : file.size > 10 * 1024 * 1024) :
    handleFileSelect file s =
      { s with
        toasts :=
          showToast s.toasts "File Too Large" "Please select an image smaller than 10MB"
            "error" } := by
  simp [handleFileSelect, h]

/-- What `handleFileSelect` does with a file within the size limit. -/
theorem handleFileSelect_small (file : File) (s : DiagnosisState)
    (h : ¬ file.size > 10 * 1024 * 1024) :
    handleFileSelect file s =
      hideResults
        { s with
          selectedFile := some file
          uploadZone :=
            s.uploadZone.map (fun zone =>
              { zone with uploadText := zone.uploadText.map (fun _ => file.name) })
          fileControls := removeHidden s.fileControls } := by
  simp [handleFileSelect, h]

/-- Adding the class `hidden` to an element of the page. -/
theorem addHidden_of_isSome (e : Option Bool) (h : e.isSome = true) : addHidden e = some true := by
  cases e with
  | none => simp at h
  | some b => rfl

/-- Removing the class `hidden` from an element of the page. -/
theorem removeHidden_of_isSome (e : Option Bool) (h : e.isSome = true) :
    removeHidden e = some false := by
  cases e with
  | none => simp at h
  | some b => rfl

/-- The handler for a file that meets neither rejection condition is the
acceptance branch of `handleFileSelect`. -/
theorem selectFile_of_accepted (origin : Origin) (file : File) (s : DiagnosisState)
    (hsize : file.size ≤ 10 * 1024 * 1024)
    (himg : origin = Origin.dragAndDrop → startsWith file.type "image/" = true) :
    (selectFile origin file s).selectedFile = some file ∧
    (selectFile origin file s).fileControls = removeHidden s.fileControls ∧
    (selectFile origin file s).content = addHidden s.content ∧
    (selectFile origin file s).placeholder = removeHidden s.placeholder ∧
    (selectFile origin file s).toasts = s.toasts := by
  have hs : ¬ file.size > 10 * 1024 * 1024 := by omega
  cases origin with
  | fileInput =>
    rw [selectFile, fileInputChange, handleFileSelect_small file s hs]
    exact ⟨rfl, rfl, rfl, rfl, rfl⟩
  | dragAndDrop =>
    rw [selectFile, uploadZoneDrop]
    simp only [himg rfl, if_true]
    rw [handleFileSelect_small file _ hs]
    exact ⟨rfl, rfl, rfl, rfl, rfl⟩

/-- The state `analyzeImage` ends in when the upload gives `result`. -/
theorem analyzeImage_ok (file : File) (outcome : FetchOutcome DiagnosisResult)
    (result : DiagnosisResult) (s : DiagnosisState)
    (h : uploadImageForDiagnosis outcome = Except.ok result) :
    analyzeImage file outcome s =
      { showResults result
          { analyzeImageStart file s with requestsSettled := s.requestsSettled + 1 } with
        toasts :=
          showToast s.toasts "Analysis Complete"
            ("Detected: " ++ result.disease ++ " with " ++ toString result.confidence ++
              "% confidence")
            "success" } := by
  simp only [analyzeImage, analyzeImageSettle, h]
  rfl

/-- The state `analyzeImage` ends in when the upload fails with `message`. -/
theorem analyzeImage_error (file : File) (outcome : FetchOutcome DiagnosisResult)
    (message : String) (s : DiagnosisState)
    (h : uploadImageForDiagnosis outcome = Except.error message) :
    analyzeImage file outcome s =
      hideLoading
        { analyzeImageStart file s with
          requestsSettled := s.requestsSettled + 1
          toasts := showToast s.toasts "Analysis Failed" message "error" } := by
  simp only [analyzeImage, analyzeImageSettle, h]
  rfl

/-! ## The claims about the diagnosis flow -/

/-- C6: for every state and every file, the selection is rejected (an error
notification is shown) if and only if the file is larger than 10 MiB, from
either origin, or it was dropped and its MIME type does not start with
`image/`.  On rejection `selectedFile` and the visibility of the file controls,
of the results content, of the placeholder and of the loading indicator are as
before; the handler changes nothing but the list of notifications and, for a
drop, the `dragover` class of the upload zone.  A file of exactly 10485760
bytes is accepted and a file of 11 MiB is rejected. -/
theorem selectFile_rejected_iff (origin : Origin) (file : File) (s : DiagnosisState) :
    (Rejected s (selectFile origin file s) ↔ RejectCondition origin file) ∧
    (RejectCondition origin file →
      (selectFile origin file s).selectedFile = s.selectedFile ∧
      (selectFile origin file s).fileControls = s.fileControls ∧
      (selectFile origin file s).content = s.content ∧
      (selectFile origin file s).placeholder = s.placeholder ∧
      (selectFile origin file s).loading = s.loading ∧
      selectFile origin file s =
        { s with
          toasts := (selectFile origin file s).toasts
          uploadZone := (selectFile origin file s).uploadZone }) ∧
    (file.size = 10485760 → (origin = Origin.dragAndDrop → startsWith file.type "image/" = true) →
      ¬ Rejected s (selectFile origin file s) ∧
      (selectFile origin file s).selectedFile = some file) ∧
    (file.size = 11 * 1024 * 1024 → Rejected s (selectFile origin file s)) := by
  have hiff : Rejected s (selectFile origin file s) ↔ RejectCondition origin file := by
    cases origin with
    | fileInput =>
      by_cases hsize : file.size > 10 * 1024 * 1024
      · simp only [selectFile, fileInputChange, handleFileSelect_large file s hsize]
        exact ⟨fun _ => Or.inl hsize, fun _ => rejected_of_showToast _ _ _ _ rfl⟩
      · simp only [selectFile, fileInputChange, handleFileSelect_small file s hsize]
        constructor
        · intro h
          exact absurd h (not_rejected_of_toasts_eq _ _ rfl)
        · rintro (h | ⟨h, _⟩)
          · exact absurd h hsize
          · cases h
    | dragAndDrop =>
      by_cases himg : startsWith file.type "image/" = true
      · by_cases hsize : file.size > 10 * 1024 * 1024
        · simp only [selectFile, uploadZoneDrop, himg, if_true, handleFileSelect_large file _ hsize]
          exact ⟨fun _ => Or.inl hsize, fun _ => rejected_of_showToast _ _ _ _ rfl⟩
        · simp only [selectFile, uploadZoneDrop, himg, if_true, handleFileSelect_small file _ hsize]
          constructor
          · intro h
            exact absurd h (not_rejected_of_toasts_eq _ _ rfl)
          · rintro (h | ⟨_, h⟩)
            · exact absurd h hsize
            · rw [himg] at h
              cases h
      · simp only [selectFile, uploadZoneDrop, himg]
        refine ⟨fun _ => Or.inr ⟨rfl, ?_⟩, fun _ => rejected_of_showToast _ _ _ _ rfl⟩
        simpa using himg
  refine ⟨hiff, ?_, ?_, ?_⟩
  · intro hrej
    cases origin with
    | fileInput =>
      have hsize : file.size > 10 * 1024 * 1024 := by
        rcases hrej with h | ⟨h, _⟩
        · exact h
        · cases h
      rw [selectFile, fileInputChange, handleFileSelect_large file s hsize]
      exact ⟨rfl, rfl, rfl, rfl, rfl, rfl⟩
    | dragAndDrop =>
      by_cases himg : startsWith file.type "image/" = true
      · have hsize : file.size > 10 * 1024 * 1024 := by
          rcases hrej with h | ⟨_, h⟩
          · exact h
          · rw [himg] at h
            cases h
        rw [selectFile, uploadZoneDrop]
        simp only [himg, if_true]
        rw [handleFileSelect_large file _ hsize]
        exact ⟨rfl, rfl, rfl, rfl, rfl, rfl⟩
      · simp only [selectFile, uploadZoneDrop, himg]
        exact ⟨rfl, rfl, rfl, rfl, rfl, rfl⟩
  · intro h10 himg
    have hsize : ¬ file.size > 10 * 1024 * 1024 := by omega
    have hnot : ¬ RejectCondition origin file := by
      rintro (h | ⟨ho, h⟩)
      · exact hsize h
      · rw [himg ho] at h
        cases h
    refine ⟨fun h => hnot (hiff.mp h), ?_⟩
    cases origin with
    | fileInput =>
      simp only [selectFile, fileInputChange, handleFileSelect_small file s hsize]
      rfl
    | dragAndDrop =>
      simp only [selectFile, uploadZoneDrop, himg rfl, if_true,
        handleFileSelect_small file _ hsize]
      rfl
  · intro h11
    exact hiff.mpr (Or.inl (by omega))

/-- The statement above at a dropped file of 11 MiB and at a dropped text file,
with a previous result on display. -/
theorem selectFile_rejected_iff_witness :
    Rejected resultShown
      (selectFile Origin.dragAndDrop { leafPhoto with size := 11 * 1024 * 1024 } resultShown) ∧
    (selectFile Origin.dragAndDrop { leafPhoto with type := "text/plain" }
      resultShown).selectedFile = resultShown.selectedFile ∧
    (selectFile Origin.fileInput { leafPhoto with size := 10485760 } resultShown).selectedFile =
      some { leafPhoto with size := 10485760 } :=
  ⟨(selectFile_rejected_iff Origin.dragAndDrop { leafPhoto with size := 11 * 1024 * 1024 }
      resultShown).2.2.2 (by decide),
    ((selectFile_rejected_iff Origin.dragAndDrop { leafPhoto with type := "text/plain" }
      resultShown).2.1 (Or.inr ⟨rfl, by decide⟩)).1,
    ((selectFile_rejected_iff Origin.fileInput { leafPhoto with size := 10485760 }
      resultShown).2.2.1 (by decide) (fun h => by cases h)).2⟩

/-- C7: for every state, a previous result on display included, and every
accepted file (at most 10 MiB, and of an image MIME type when dropped), after
the selection `selectedFile` is that file, the file controls are visible, the
results content is hidden and the placeholder is shown, each of the three
elements when the page has it; no notification is shown. -/
theorem selectFile_accepted_file_selected (origin : Origin) (file : File) (s : DiagnosisState)
    (hsize : file.size ≤ 10 * 1024 * 1024)
    (himg : origin = Origin.dragAndDrop → startsWith file.type "image/" = true) :
    (selectFile origin file s).selectedFile = some file ∧
    (s.fileControls.isSome = true → (selectFile origin file s).fileControls = some false) ∧
    (s.content.isSome = true → (selectFile origin file s).content = some true) ∧
    (s.placeholder.isSome = true → (selectFile origin file s).placeholder = some false) ∧
    (selectFile origin file s).toasts = s.toasts := by
  obtain ⟨h1, h2, h3, h4, h5⟩ := selectFile_of_accepted origin file s hsize himg
  exact ⟨h1, fun h => by rw [h2, removeHidden_of_isSome _ h],
    fun h => by rw [h3, addHidden_of_isSome _ h],
    fun h => by rw [h4, removeHidden_of_isSome _ h], h5⟩

/-- The statement above at a dropped photo, with a previous result on display. -/
theorem selectFile_accepted_file_selected_witness :
    (selectFile Origin.dragAndDrop leafPhoto resultShown).selectedFile = some leafPhoto ∧
    (selectFile Origin.dragAndDrop leafPhoto resultShown).fileControls = some false ∧
    (selectFile Origin.dragAndDrop leafPhoto resultShown).content = some true ∧
    (selectFile Origin.dragAndDrop leafPhoto resultShown).placeholder = some false :=
  ⟨(selectFile_accepted_file_selected Origin.dragAndDrop leafPhoto resultShown (by decide)
      (fun _ => by decide)).1,
    (selectFile_accepted_file_selected Origin.dragAndDrop leafPhoto resultShown (by decide)
      (fun _ => by decide)).2.1 (by decide),
    (selectFile_accepted_file_selected Origin.dragAndDrop leafPhoto resultShown (by decide)
      (fun _ => by decide)).2.2.1 (by decide),
    (selectFile_accepted_file_selected Origin.dragAndDrop leafPhoto resultShown (by decide)
      (fun _ => by decide)).2.2.2.1 (by decide)⟩

/-- C8: for every file and state, `analyzeImage` first shows the loading
indicator and hides the results content and the placeholder, and sends one
request.  Whatever the request comes to, that one request is the only one sent.
For a 2xx response with a parsed body the results content is visible, the
loading indicator hidden and the returned disease and confidence are shown.
When the request rejects, or the response is not 2xx (the message then being
`HTTP error! status: ` followed by the status), one notification
`Analysis Failed` of the type `error` carries the message, the loading
indicator and the results content are hidden, and the result elements and
`selectedFile` are as before.  Statements about an element hold when the page
has it. -/
theorem analyzeImage_outcomes (file : File) (s : DiagnosisState) :
    ((analyzeImageStart file s).requestsIssued = s.requestsIssued ++ [file] ∧
      (s.loading.isSome = true → (analyzeImageStart file s).loading = some false) ∧
      (s.content.isSome = true → (analyzeImageStart file s).content = some true) ∧
      (s.placeholder.isSome = true → (analyzeImageStart file s).placeholder = some true)) ∧
    (∀ outcome : FetchOutcome DiagnosisResult,
      (analyzeImage file outcome s).requestsIssued = s.requestsIssued ++ [file]) ∧
    (∀ (status : Nat) (result : DiagnosisResult), responseOk status = true →
      (s.content.isSome = true →
        (analyzeImage file (FetchOutcome.response status (Except.ok result)) s).content =
          some false) ∧
      (s.loading.isSome = true →
        (analyzeImage file (FetchOutcome.response status (Except.ok result)) s).loading =
          some true) ∧
      (s.diseaseName.isSome = true →
        (analyzeImage file (FetchOutcome.response status (Except.ok result)) s).diseaseName =
          some result.disease) ∧
      (s.confidenceValue.isSome = true →
        (analyzeImage file (FetchOutcome.response status (Except.ok result)) s).confidenceValue =
          some (toString result.confidence ++ "%"))) ∧
    (∀ (outcome : FetchOutcome DiagnosisResult) (message : String),
      (outcome = FetchOutcome.rejected message ∨
        ∃ (status : Nat) (json : Except String DiagnosisResult),
          responseOk status = false ∧ outcome = FetchOutcome.response status json ∧
          message = "HTTP error! status: " ++ toString status) →
      (analyzeImage file outcome s).toasts =
        s.toasts ++ [{ title := "Analysis Failed", description := message, type := "error" }] ∧
      (s.loading.isSome = true → (analyzeImage file outcome s).loading = some true) ∧
      (s.content.isSome = true → (analyzeImage file outcome s).content = some true) ∧
      (analyzeImage file outcome s).diseaseName = s.diseaseName ∧
      (analyzeImage file outcome s).confidenceProgress = s.confidenceProgress ∧
      (analyzeImage file outcome s).confidenceValue = s.confidenceValue ∧
      (analyzeImage file outcome s).diseaseDescription = s.diseaseDescription ∧
      (analyzeImage file outcome s).descriptionCard = s.descriptionCard ∧
      (analyzeImage file outcome s).recommendationsList = s.recommendationsList ∧
      (analyzeImage file outcome s).selectedFile = s.selectedFile) := by
  refine ⟨⟨rfl, fun h => removeHidden_of_isSome _ h, fun h => addHidden_of_isSome _ h,
    fun h => addHidden_of_isSome _ h⟩, ?_, ?_, ?_⟩
  · intro outcome
    cases hu : uploadImageForDiagnosis outcome with
    | ok result => rw [analyzeImage_ok file outcome result s hu]; rfl
    | error message => rw [analyzeImage_error file outcome message s hu]; rfl
  · intro status result hok
    have hu : uploadImageForDiagnosis (FetchOutcome.response status (Except.ok result)) =
        Except.ok result := by
      simp [uploadImageForDiagnosis, hok]
    rw [analyzeImage_ok file _ result s hu]
    refine ⟨fun h => ?_, fun h => ?_, fun h => ?_, fun h => ?_⟩
    · show removeHidden (addHidden s.content) = some false
      exact removeHidden_of_isSome _ (by rw [addHidden_of_isSome _ h]; rfl)
    · show addHidden (removeHidden s.loading) = some true
      exact addHidden_of_isSome _ (by rw [removeHidden_of_isSome _ h]; rfl)
    · show s.diseaseName.map (fun _ => result.disease) = some result.disease
      cases hd : s.diseaseName with
      | none => simp [hd] at h
      | some v => rfl
    · show s.confidenceValue.map (fun _ => toString result.confidence ++ "%") = _
      cases hd : s.confidenceValue with
      | none => simp [hd] at h
      | some v => rfl
  · intro outcome message hfail
    have hu : uploadImageForDiagnosis outcome = Except.error message := by
      rcases hfail with h | ⟨status, json, hs, h, hm⟩
      · rw [h]; rfl
      · rw [h, hm]
        simp [uploadImageForDiagnosis, hs]
    rw [analyzeImage_error file outcome message s hu]
    refine ⟨rfl, fun h => ?_, fun h => ?_, rfl, rfl, rfl, rfl, rfl, rfl, rfl⟩
    · show addHidden (removeHidden s.loading) = some true
      exact addHidden_of_isSome _ (by rw [removeHidden_of_isSome _ h]; rfl)
    · show addHidden s.content = some true
      exact addHidden_of_isSome _ h

/-- The statement above at a successful upload and at a response 500. -/
theorem analyzeImage_outcomes_witness :
    (analyzeImageStart leafPhoto resultShown).loading = some false ∧
    (analyzeImage leafPhoto (FetchOutcome.response 200 (Except.ok blightResult))
      resultShown).diseaseName = some "Late Blight" ∧
    (analyzeImage leafPhoto (FetchOutcome.response 500 (Except.error "")) resultShown).toasts =
      resultShown.toasts ++
        [{ title := "Analysis Failed", description := "HTTP error! status: " ++ toString 500,
           type := "error" }] ∧
    (analyzeImage leafPhoto (FetchOutcome.response 500 (Except.error "")) resultShown).content =
      some true :=
  ⟨(analyzeImage_outcomes leafPhoto resultShown).1.2.1 (by decide),
    ((analyzeImage_outcomes leafPhoto resultShown).2.2.1 200 blightResult (by decide)).2.2.1
      (by decide),
    ((analyzeImage_outcomes leafPhoto resultShown).2.2.2
      (FetchOutcome.response 500 (Except.error "")) ("HTTP error! status: " ++ toString 500)
      (Or.inr ⟨500, Except.error "", by decide, rfl, rfl⟩)).1,
    ((analyzeImage_outcomes leafPhoto resultShown).2.2.2
      (FetchOutcome.response 500 (Except.error "")) ("HTTP error! status: " ++ toString 500)
      (Or.inr ⟨500, Except.error "", by decide, rfl, rfl⟩)).2.2.1 (by decide)⟩

/-- C9: from every state `resetDiagnosis` gives the idle state: `selectedFile`
is null, the file input is cleared, the upload prompt is restored, the file
controls, the results content and the loading indicator are hidden and the
placeholder is shown (each element when the page has it); a file that meets no
rejection condition is selected when handed over afterwards; and a second
`resetDiagnosis` changes nothing. -/
theorem resetDiagnosis_idle (s : DiagnosisState) :
    (resetDiagnosis s).selectedFile = none ∧
    (s.fileInput.isSome = true → (resetDiagnosis s).fileInput = some "") ∧
    (∀ zone : UploadZone, s.uploadZone = some zone → zone.uploadText.isSome = true →
      (resetDiagnosis s).uploadZone =
        some { zone with uploadText := some "Click to upload or drag and drop" }) ∧
    (s.fileControls.isSome = true → (resetDiagnosis s).fileControls = some true) ∧
    (s.content.isSome = true → (resetDiagnosis s).content = some true) ∧
    (s.loading.isSome = true → (resetDiagnosis s).loading = some true) ∧
    (s.placeholder.isSome = true → (resetDiagnosis s).placeholder = some false) ∧
    (∀ (origin : Origin) (file : File), ¬ RejectCondition origin file →
      (selectFile origin file (resetDiagnosis s)).selectedFile = some file) ∧
    resetDiagnosis (resetDiagnosis s) = resetDiagnosis s := by
  refine ⟨rfl, ?_, ?_, ?_, ?_, ?_, ?_, ?_, ?_⟩
  · intro h
    cases hf : s.fileInput with
    | none => simp [hf] at h
    | some v => simp [resetDiagnosis, hideLoading, hideResults, hf]
  · intro zone hz ht
    cases hu : zone.uploadText with
    | none => simp [hu] at ht
    | some v => simp [resetDiagnosis, hideLoading, hideResults, hz, hu]
  · intro h
    exact addHidden_of_isSome _ h
  · intro h
    exact addHidden_of_isSome _ h
  · intro h
    exact addHidden_of_isSome _ h
  · intro h
    cases hp : s.placeholder with
    | none => simp [hp] at h
    | some v => simp [resetDiagnosis, hideLoading, hideResults, hp, removeHidden]
  · intro origin file hnot
    refine (selectFile_of_accepted origin file _ ?_ ?_).1
    · by_contra hc
      exact hnot (Or.inl (by omega))
    · intro ho
      by_contra hc
      exact hnot (Or.inr ⟨ho, by simpa using hc⟩)
  · cases s with
    | mk sel uz fi fc ph lo co dc dn cp cv dd rl ts ri rs =>
      cases uz with
      | none => cases fi <;> cases fc <;> cases ph <;> cases lo <;> cases co <;> rfl
      | some z =>
        cases z with
        | mk d t =>
          cases t <;> cases fi <;> cases fc <;> cases ph <;> cases lo <;> cases co <;> rfl

/-- The statement above with a previous result on display. -/
theorem resetDiagnosis_idle_witness :
    (resetDiagnosis resultShown).fileInput = some "" ∧
    (resetDiagnosis resultShown).fileControls = some true ∧
    (resetDiagnosis resultShown).content = some true ∧
    (resetDiagnosis resultShown).loading = some true ∧
    (resetDiagnosis resultShown).placeholder = some false ∧
    (selectFile Origin.fileInput leafPhoto (resetDiagnosis resultShown)).selectedFile =
      some leafPhoto :=
  ⟨(resetDiagnosis_idle resultShown).2.1 (by decide),
    (resetDiagnosis_idle resultShown).2.2.2.1 (by decide),
    (resetDiagnosis_idle resultShown).2.2.2.2.1 (by decide),
    (resetDiagnosis_idle resultShown).2.2.2.2.2.1 (by decide),
    (resetDiagnosis_idle resultShown).2.2.2.2.2.2.1 (by decide),
    (resetDiagnosis_idle resultShown).2.2.2.2.2.2.2.1 Origin.fileInput leafPhoto (by unfold RejectCondition; decide)⟩

/-! ## The category argument -/

/-- C10, as stated, fails: for the catalog holding one plant of the category
`Grain` and the category argument `Grain`, the lowercase forms of the two are
equal, yet `filterPlants("", "Grain")` does not keep the plant. -/
theorem category_argument_case_counterexample :
    "Grain" ≠ "all" ∧ wheat ∈ (libraryWith [wheat] 8).allPlants ∧
    asciiLower wheat.category = asciiLower "Grain" ∧
    wheat ∉ (filterPlants asciiLower "" "Grain" (libraryWith [wheat] 8)).filteredPlants := by
  decide

/-- C10, amended: the category match lowercases the plant's category and takes
the category argument as it is given.  For every catalog, every category
argument `c` other than `all` and the empty query, a plant of the catalog is in
the result of `filterPlants("", c)` if and only if the lowercase form of its
category equals `c`; for an argument that is its own lowercase form, as the
selector supplies, that is the lowercase form of `c`. -/
theorem filterPlants_category_as_given (toLowerCase : String → String)
    (hempty : toLowerCase "" = "") (s : LibraryState) (c : String) (hc : c ≠ "all")
    (p : Plant) (hp : p ∈ s.allPlants) :
    (p ∈ (filterPlants toLowerCase "" c s).filteredPlants ↔ toLowerCase p.category = c) ∧
    (toLowerCase c = c →
      (p ∈ (filterPlants toLowerCase "" c s).filteredPlants ↔
        toLowerCase p.category = toLowerCase c)) := by
  have h : p ∈ (filterPlants toLowerCase "" c s).filteredPlants ↔ toLowerCase p.category = c := by
    rw [filterPlants_filteredPlants, List.mem_filter, Bool.and_eq_true,
      matchesSearch_iff toLowerCase hempty, matchesCategory_iff]
    constructor
    · rintro ⟨_, _, h | h⟩
      · exact absurd h hc
      · exact h
    · intro h
      exact ⟨hp, Or.inl rfl, Or.inr h⟩
  exact ⟨h, fun hl => by rw [hl]; exact h⟩

/-- The statement above at the arguments `grain` and `GRAIN`. -/
theorem filterPlants_category_as_given_witness :
    (wheat ∈ (filterPlants asciiLower "" "grain" (libraryWith [wheat, potato] 8)).filteredPlants ↔
      asciiLower wheat.category = "grain") ∧
    (potato ∈ (filterPlants asciiLower "" "GRAIN" (libraryWith [wheat, potato] 8)).filteredPlants ↔
      asciiLower potato.category = "GRAIN") :=
  ⟨(filterPlants_category_as_given asciiLower (by decide) (libraryWith [wheat, potato] 8) "grain"
      (by decide) wheat (by decide)).1,
    (filterPlants_category_as_given asciiLower (by decide) (libraryWith [wheat, potato] 8) "GRAIN"
      (by decide) potato (by decide)).1⟩

/-! ## Idempotence of the filter -/

/-- Rendering twice leaves what rendering once leaves. -/
theorem renderPlants_idem (s : LibraryState) : renderPlants (renderPlants s) = renderPlants s := by
  rcases s with ⟨ap, fp, n, vm, g, lm, np, cf, ts⟩
  cases g with
  | none => rfl
  | some g =>
    by_cases h0 : fp.length = 0
    · cases lm <;> cases np <;> simp [renderPlants, h0, addHidden, removeHidden]
    · by_cases hlt : n < fp.length
      · cases lm <;> cases np <;> simp [renderPlants, h0, hlt, addHidden, removeHidden]
      · cases lm <;> cases np <;> simp [renderPlants, h0, hlt, addHidden, removeHidden]

/-- C11: filtering is idempotent.  For every state and every `(q, c)`, a second
`filterPlants(q, c)` right after the first leaves the state the first left:
the same `filteredPlants` as an ordered list, the same `allPlants`, the cursor
at 8.  Two calls with the same `(q, c)` on states with the same catalog give
the same ordered `filteredPlants` and the same cursor, whatever
`filteredPlants` and the cursor were before each call. -/
theorem filterPlants_idempotent (toLowerCase : String → String) (q c : String)
    (s s1 s2 : LibraryState) :
    filterPlants toLowerCase q c (filterPlants toLowerCase q c s) = filterPlants toLowerCase q c s ∧
    (filterPlants toLowerCase q c (filterPlants toLowerCase q c s)).filteredPlants =
      (filterPlants toLowerCase q c s).filteredPlants ∧
    (filterPlants toLowerCase q c (filterPlants toLowerCase q c s)).allPlants = s.allPlants ∧
    (filterPlants toLowerCase q c (filterPlants toLowerCase q c s)).visiblePlantsCount = 8 ∧
    (s1.allPlants = s2.allPlants →
      (filterPlants toLowerCase q c s1).filteredPlants =
        (filterPlants toLowerCase q c s2).filteredPlants ∧
      (filterPlants toLowerCase q c s1).visiblePlantsCount =
        (filterPlants toLowerCase q c s2).visiblePlantsCount) := by
  have h : filterPlants toLowerCase q c (filterPlants toLowerCase q c s) =
      filterPlants toLowerCase q c s := by
    have e : ∀ t : LibraryState,
        t.filteredPlants = t.allPlants.filter (fun plant =>
          matchesSearch toLowerCase (toLowerCase q) plant &&
            matchesCategory toLowerCase c plant) →
        t.visiblePlantsCount = 8 → filterPlants toLowerCase q c t = renderPlants t := by
      intro t h1 h2
      rcases t with ⟨ap, fp, n, vm, g, lm, np, cf, ts⟩
      simp only at h1 h2
      subst h1 h2
      rfl
    rw [e (filterPlants toLowerCase q c s)
      (by rw [filterPlants_filteredPlants]; simp [filterPlants])
      (filterPlants_elements toLowerCase q c s).2.2]
    exact renderPlants_idem _
  refine ⟨h, by rw [h], by rw [h]; simp [filterPlants], by rw [h]; simp [filterPlants], ?_⟩
  intro hall
  rw [filterPlants_filteredPlants, filterPlants_filteredPlants, hall,
    (filterPlants_elements toLowerCase q c s1).2.2, (filterPlants_elements toLowerCase q c s2).2.2]
  exact ⟨rfl, rfl⟩

/-- The statement above at two states that differ in the cursor and in the
previous result. -/
theorem filterPlants_idempotent_witness :
    (filterPlants asciiLower "wheat" "grain" (libraryWith [wheat, potato] 24)).filteredPlants =
      (filterPlants asciiLower "wheat" "grain"
        { libraryWith [wheat, potato] 8 with filteredPlants := [potato] }).filteredPlants :=
  ((filterPlants_idempotent asciiLower "wheat" "grain" (libraryWith [] 8)
    (libraryWith [wheat, potato] 24)
    { libraryWith [wheat, potato] 8 with filteredPlants := [potato] }).2.2.2.2 rfl).1

/-! ## Overlapping uploads -/

/-- C12, as stated, fails: on a page in the idle state, after a file is selected
and the analyze button clicked the loading indicator shows and one upload is
under way; a second click before that upload settles starts another one, and
two uploads are under way. -/
theorem concurrent_uploads_counterexample :
    inFlight (diagnosisRun [DiagnosisEvent.fileSelected Origin.fileInput leafPhoto,
      DiagnosisEvent.analyzeClicked] idlePage) = 1 ∧
    (diagnosisRun [DiagnosisEvent.fileSelected Origin.fileInput leafPhoto,
      DiagnosisEvent.analyzeClicked] idlePage).loading = some false ∧
    inFlight (diagnosisRun [DiagnosisEvent.fileSelected Origin.fileInput leafPhoto,
      DiagnosisEvent.analyzeClicked, DiagnosisEvent.analyzeClicked] idlePage) = 2 ∧
    ¬ inFlight (diagnosisRun [DiagnosisEvent.fileSelected Origin.fileInput leafPhoto,
      DiagnosisEvent.analyzeClicked, DiagnosisEvent.analyzeClicked] idlePage) ≤ 1 := by
  decide

/-- One click on the analyze button with a file selected. -/
theorem analyzeClick_of_selected (file : File) (s : DiagnosisState)
    (hsel : s.selectedFile = some file) :
    (analyzeClick s).requestsIssued = s.requestsIssued ++ [file] ∧
    (analyzeClick s).requestsSettled = s.requestsSettled ∧
    (analyzeClick s).selectedFile = some file := by
  simp only [analyzeClick, hsel]
  exact ⟨rfl, rfl, hsel⟩

/-- C12, amended: the script does not keep analyze calls apart.  In every state
with a file selected, the analyzing state included, a click on the analyze
button sends one more upload of that file, so the number of uploads under way
grows by one with each click, and after `n` clicks with no upload settling in
between it has grown by `n`. -/
theorem analyzeClick_starts_upload (file : File) (s : DiagnosisState) (n : Nat)
    (hsel : s.selectedFile = some file) (hle : s.requestsSettled ≤ s.requestsIssued.length) :
    (analyzeClick s).requestsIssued = s.requestsIssued ++ [file] ∧
    inFlight (analyzeClick s) = inFlight s + 1 ∧
    (analyzeClicks n s).requestsIssued = s.requestsIssued ++ List.replicate n file ∧
    inFlight (analyzeClicks n s) = inFlight s + n := by
  have hn : ∀ (n : Nat) (t : DiagnosisState), t.selectedFile = some file →
      (analyzeClicks n t).requestsIssued = t.requestsIssued ++ List.replicate n file ∧
      (analyzeClicks n t).requestsSettled = t.requestsSettled := by
    intro n
    induction n with
    | zero => intro t _; simp [analyzeClicks]
    | succ n ih =>
      intro t ht
      obtain ⟨h1, h2, h3⟩ := analyzeClick_of_selected file t ht
      obtain ⟨i1, i2⟩ := ih (analyzeClick t) h3
      simp only [analyzeClicks]
      rw [i1, i2, h1, h2, List.replicate_succ]
      simp
  obtain ⟨h1, h2, _⟩ := analyzeClick_of_selected file s hsel
  obtain ⟨k1, k2⟩ := hn n s hsel
  refine ⟨h1, ?_, k1, ?_⟩
  · simp only [inFlight, h1, h2, List.length_append, List.length_singleton]
    omega
  · simp only [inFlight, k1, k2, List.length_append, List.length_replicate]
    omega

/-- The statement above at three clicks after a photo is selected. -/
theorem analyzeClick_starts_upload_witness :
    inFlight (analyzeClicks 3 (selectFile Origin.fileInput leafPhoto idlePage)) =
      inFlight (selectFile Origin.fileInput leafPhoto idlePage) + 3 :=
  (analyzeClick_starts_upload leafPhoto (selectFile Origin.fileInput leafPhoto idlePage) 3
    (by decide) (by decide)).2.2.2

/-! ## Category options -/

/-- The loop of `setValues`, started with the values `seen`: what has been seen
stays in front, followed by the first occurrences that are new. -/
theorem foldl_seen (l seen : List String) :
    l.foldl (fun seen x => if x ∈ seen then seen else seen ++ [x]) seen =
      seen ++ (firstOccurrences l).filter (fun y => decide (y ∉ seen)) := by
  induction l generalizing seen with
  | nil => simp [firstOccurrences]
  | cons x xs ih =>
    rw [List.foldl_cons, ih]
    by_cases hx : x ∈ seen
    · simp only [hx, if_true, firstOccurrences]
      congr 1
      rw [List.filter_cons]
      simp only [hx, not_true_eq_false, decide_False, Bool.false_eq_true, if_false]
      rw [List.filter_filter]
      apply List.filter_congr
      intro y _
      by_cases hy : y ∈ seen
      · simp [hy]
      · have : y ≠ x := fun h => hy (h ▸ hx)
        simp [hy, this]
    · simp only [hx, if_false, firstOccurrences]
      rw [List.filter_cons]
      simp only [hx, not_false_eq_true, decide_True, if_true]
      rw [List.append_assoc, List.singleton_append, List.filter_filter]
      congr 2
      apply List.filter_congr
      intro y _
      by_cases hy : y ∈ seen
      · simp [hy]
      · by_cases hyx : y = x
        · simp [hyx]
        · simp [hy, hyx]

/-- The values of `new Set(list)` are the first occurrences of the list. -/
theorem setValues_eq_firstOccurrences (l : List String) : setValues l = firstOccurrences l := by
  rw [setValues, foldl_seen]
  simp

/-- The first occurrences hold the values of the list and no other. -/
theorem mem_firstOccurrences (l : List String) (x : String) :
    x ∈ firstOccurrences l ↔ x ∈ l := by
  induction l with
  | nil => simp [firstOccurrences]
  | cons a l ih =>
    simp only [firstOccurrences, List.mem_cons, List.mem_filter, ih]
    constructor
    · rintro (h | ⟨h, _⟩)
      · exact Or.inl h
      · exact Or.inr h
    · intro h
      by_cases hxa : x = a
      · exact Or.inl hxa
      · rcases h with h | h
        · exact Or.inl h
        · exact Or.inr ⟨h, by simpa using hxa⟩

/-- No value is listed twice among the first occurrences. -/
theorem nodup_firstOccurrences (l : List String) : (firstOccurrences l).Nodup := by
  induction l with
  | nil => simp [firstOccurrences]
  | cons a l ih =>
    simp only [firstOccurrences, List.nodup_cons, List.mem_filter]
    refine ⟨fun h => ?_, ih.filter _⟩
    simpa using h.2

/-- The first occurrences stand in the order of their first positions. -/
theorem pairwise_firstOccurrences (l : List String) :
    (firstOccurrences l).Pairwise (fun x y => l.indexOf x < l.indexOf y) := by
  induction l with
  | nil => simp [firstOccurrences]
  | cons a l ih =>
    simp only [firstOccurrences, List.pairwise_cons, List.mem_filter]
    constructor
    · intro y hy
      have hya : y ≠ a := by simpa using hy.2
      rw [List.indexOf_cons_self, List.indexOf_cons_ne _ (Ne.symm hya)]
      exact Nat.succ_pos _
    · refine (ih.filter _).imp_of_mem ?_
      intro x y hx hy hlt
      have hxa : x ≠ a := by simpa using (List.mem_filter.mp hx).2
      have hya : y ≠ a := by simpa using (List.mem_filter.mp hy).2
      rw [List.indexOf_cons_ne _ (Ne.symm hxa), List.indexOf_cons_ne _ (Ne.symm hya)]
      exact Nat.succ_lt_succ hlt

/-- C13: on a page with the category selector, the options built by
`populateCategoryFilter` are the fixed option `all` followed by one option for
each distinct value of `plant.category` over `allPlants`, labelled with that
value (its `value` attribute is the lowercase form): each value is listed once,
the values listed are those of the plants of the catalog, and they stand in the
order of their first occurrence in `allPlants`.  Two states with the same
`allPlants` get the same options. -/
theorem populateCategoryFilter_options (toLowerCase : String → String) (s s2 : LibraryState)
    (hsel : s.categoryFilter.isSome = true) :
    (populateCategoryFilter toLowerCase s).categoryFilter =
      some ({ value := "all", textContent := "All Categories" } ::
        (firstOccurrences (s.allPlants.map (fun plant => plant.category))).map
          (fun category => { value := toLowerCase category, textContent := category })) ∧
    (firstOccurrences (s.allPlants.map (fun plant => plant.category))).Nodup ∧
    (∀ category : String,
      category ∈ firstOccurrences (s.allPlants.map (fun plant => plant.category)) ↔
        ∃ plant ∈ s.allPlants, plant.category = category) ∧
    (firstOccurrences (s.allPlants.map (fun plant => plant.category))).Pairwise
      (fun x y =>
        (s.allPlants.map (fun plant => plant.category)).indexOf x <
          (s.allPlants.map (fun plant => plant.category)).indexOf y) ∧
    (s2.categoryFilter.isSome = true → s2.allPlants = s.allPlants →
      (populateCategoryFilter toLowerCase s2).categoryFilter =
        (populateCategoryFilter toLowerCase s).categoryFilter) := by
  have hpop : ∀ t : LibraryState, t.categoryFilter.isSome = true →
      (populateCategoryFilter toLowerCase t).categoryFilter =
        some ({ value := "all", textContent := "All Categories" } ::
          (firstOccurrences (t.allPlants.map (fun plant => plant.category))).map
            (fun category => { value := toLowerCase category, textContent := category })) := by
    intro t ht
    cases hc : t.categoryFilter with
    | none => simp [hc] at ht
    | some o => simp [populateCategoryFilter, hc, setValues_eq_firstOccurrences]
  refine ⟨hpop s hsel, nodup_firstOccurrences _, ?_, pairwise_firstOccurrences _, ?_⟩
  · intro category
    rw [mem_firstOccurrences, List.mem_map]
  · intro h2 hall
    rw [hpop s hsel, hpop s2 h2, hall]

/-- The statement above at a catalog in which a category occurs twice. -/
theorem populateCategoryFilter_options_witness :
    (populateCategoryFilter asciiLower (libraryWith [wheat, potato, wheat] 8)).categoryFilter =
      some ({ value := "all", textContent := "All Categories" } ::
        (firstOccurrences ((libraryWith [wheat, potato, wheat] 8).allPlants.map
          (fun plant => plant.category))).map
          (fun category => { value := asciiLower category, textContent := category })) :=
  (populateCategoryFilter_options asciiLower (libraryWith [wheat, potato, wheat] 8)
    (libraryWith [] 8) (by decide)).1

/-! ## Loading from the initial state -/

/-- The state after a `loadPlants` whose request fails. -/
theorem loadPlants_error (toLowerCase : String → String) (outcome : FetchOutcome (List Plant))
    (message : String) (s : LibraryState) (herr : fetchFromAPI outcome = Except.error message) :
    (loadPlants toLowerCase outcome s).allPlants = s.allPlants ∧
    (loadPlants toLowerCase outcome s).filteredPlants = s.filteredPlants ∧
    (loadPlants toLowerCase outcome s).toasts =
      s.toasts ++ [{ title := "Error", description := "Failed to load plant library",
                     type := "error" }] ∧
    (s.plantsGrid.isSome = true →
      (loadPlants toLowerCase outcome s).plantsGrid.map (fun g => g.children) =
        some [GridChild.loadFailure]) := by
  cases hg : s.plantsGrid with
  | none => simp [loadPlants, loadPlantsStart, hg, showToast]
  | some g => simp [loadPlants, loadPlantsStart, hg, loadPlantsSettle, herr, showToast]

/-- C14: `loadPlants` run from the initial state (`allPlants` and
`filteredPlants` empty, the cursor at 8).  When the request rejects or the
response is not 2xx, the notification `Failed to load plant library` of the
type `error` is shown, the grid, when the page has one, shows the failure
block, and `allPlants` and `filteredPlants` are still empty.  When the request
succeeds with the list `plants` on a page with the plants grid, `allPlants` and
`filteredPlants` are `plants`, in the order of the server, and the cards
rendered are the first `min 8 plants.length` of them. -/
theorem loadPlants_from_initial (toLowerCase : String → String)
    (outcome : FetchOutcome (List Plant)) (s : LibraryState)
    (hall : s.allPlants = []) (hfiltered : s.filteredPlants = [])
    (hcursor : s.visiblePlantsCount = 8) :
    (((∃ message : String, outcome = FetchOutcome.rejected message) ∨
        ∃ (status : Nat) (json : Except String (List Plant)),
          responseOk status = false ∧ outcome = FetchOutcome.response status json) →
      (loadPlants toLowerCase outcome s).allPlants = [] ∧
      (loadPlants toLowerCase outcome s).filteredPlants = [] ∧
      (loadPlants toLowerCase outcome s).toasts =
        s.toasts ++ [{ title := "Error", description := "Failed to load plant library",
                       type := "error" }] ∧
      (s.plantsGrid.isSome = true →
        (loadPlants toLowerCase outcome s).plantsGrid.map (fun g => g.children) =
          some [GridChild.loadFailure])) ∧
    (∀ (status : Nat) (plants : List Plant), s.plantsGrid.isSome = true →
      responseOk status = true → outcome = FetchOutcome.response status (Except.ok plants) →
      (loadPlants toLowerCase outcome s).allPlants = plants ∧
      (loadPlants toLowerCase outcome s).filteredPlants = plants ∧
      renderedPlants (loadPlants toLowerCase outcome s) = plants.take (min 8 plants.length)) := by
  constructor
  · intro hfail
    have herr : ∃ message, fetchFromAPI outcome = Except.error message := by
      rcases hfail with ⟨m, h⟩ | ⟨status, json, hs, h⟩
      · exact ⟨m, by rw [h]; rfl⟩
      · exact ⟨"HTTP error! status: " ++ toString status, by rw [h]; simp [fetchFromAPI, hs]⟩
    obtain ⟨m, hm⟩ := herr
    obtain ⟨h1, h2, h3, h4⟩ := loadPlants_error toLowerCase outcome m s hm
    exact ⟨h1.trans hall, h2.trans hfiltered, h3, h4⟩
  · intro status plants hgrid hok hout
    have hfetch : fetchFromAPI outcome = Except.ok plants := by
      rw [hout]
      simp [fetchFromAPI, hok]
    obtain ⟨l1, l2, l3, _, l5⟩ := loadPlants_ok toLowerCase outcome plants s hgrid hfetch
    refine ⟨l1, l2, ?_⟩
    rw [l5, hcursor, take_min_length]

/-- The statement above at a response 500 and at a catalog of ten plants. -/
theorem loadPlants_from_initial_witness :
    (loadPlants asciiLower (FetchOutcome.response 500 (Except.error "")) (libraryWith [] 8)).allPlants
      = [] ∧
    renderedPlants (loadPlants asciiLower (FetchOutcome.response 200 (Except.ok (numberedPlants 10)))
      (libraryWith [] 8)) = (numberedPlants 10).take (min 8 (numberedPlants 10).length) :=
  ⟨((loadPlants_from_initial asciiLower (FetchOutcome.response 500 (Except.error ""))
      (libraryWith [] 8) rfl rfl rfl).1 (Or.inr ⟨500, Except.error "", by decide, rfl⟩)).1,
    ((loadPlants_from_initial asciiLower (FetchOutcome.response 200 (Except.ok (numberedPlants 10)))
      (libraryWith [] 8) rfl rfl rfl).2 200 (numberedPlants 10) (by decide) (by decide) rfl).2.2⟩

/-! ## Theme toggling -/

/-- What `toggleTheme` leaves in `currentTheme` and in the storage. -/
theorem toggleTheme_fields (s : ThemeState) :
    (toggleTheme s).currentTheme = (if s.currentTheme = "dark" then "light" else "dark") ∧
    (toggleTheme s).storedTheme = some (toggleTheme s).currentTheme ∧
    (toggleTheme s).bodyDark = ((toggleTheme s).currentTheme == "dark") := by
  simp [toggleTheme, updateThemeIcon]

/-- After `initializeTheme` the theme is `light` or `dark`, for a stored value
that is absent or one of `light`, `dark`, `system`. -/
theorem initializeTheme_light_or_dark (stored : Option String) (bodyDark systemPrefersDark : Bool)
    (themeIcon : Option String)
    (hstored : stored = none ∨ stored = some "light" ∨ stored = some "dark" ∨
      stored = some "system") :
    (initializeTheme systemPrefersDark (themeAtLoad stored bodyDark themeIcon)).currentTheme =
        "light" ∨
    (initializeTheme systemPrefersDark (themeAtLoad stored bodyDark themeIcon)).currentTheme =
        "dark" := by
  rcases hstored with h | h | h | h <;> subst h
  · left; rfl
  · left; rfl
  · right; rfl
  · cases systemPrefersDark
    · left; rfl
    · right; rfl

/-- Toggling keeps the theme among `light` and `dark`. -/
theorem toggleThemes_light_or_dark (n : Nat) (s : ThemeState)
    (h : s.currentTheme = "light" ∨ s.currentTheme = "dark") :
    (toggleThemes n s).currentTheme = "light" ∨ (toggleThemes n s).currentTheme = "dark" := by
  induction n generalizing s with
  | zero => exact h
  | succ n ih =>
    apply ih
    rw [(toggleTheme_fields s).1]
    rcases h with h | h
    · right; rw [h]; rfl
    · left; rw [h]; rfl

/-- C15: when the value stored under `agrosmartai-ui-theme` at startup is absent
or one of `light`, `dark`, `system`, then after `initializeTheme` and any
number of `toggleTheme` calls `currentTheme` is `light` or `dark`.  Every
`toggleTheme` turns `light` into `dark` and `dark` into `light` and writes the
new value to the storage, so that the stored value equals `currentTheme` after
each toggle, and two toggles in a row give back the theme there was. -/
theorem theme_light_or_dark (stored : Option String) (bodyDark systemPrefersDark : Bool)
    (themeIcon : Option String) (n : Nat)
    (hstored : stored = none ∨ stored = some "light" ∨ stored = some "dark" ∨
      stored = some "system") :
    ((toggleThemes n (initializeTheme systemPrefersDark
        (themeAtLoad stored bodyDark themeIcon))).currentTheme = "light" ∨
      (toggleThemes n (initializeTheme systemPrefersDark
        (themeAtLoad stored bodyDark themeIcon))).currentTheme = "dark") ∧
    (∀ s : ThemeState, s.currentTheme = "light" →
      (toggleTheme s).currentTheme = "dark" ∧ (toggleTheme s).storedTheme = some "dark") ∧
    (∀ s : ThemeState, s.currentTheme = "dark" →
      (toggleTheme s).currentTheme = "light" ∧ (toggleTheme s).storedTheme = some "light") ∧
    (∀ s : ThemeState, (toggleTheme s).storedTheme = some (toggleTheme s).currentTheme) ∧
    (toggleTheme (toggleTheme (toggleThemes n (initializeTheme systemPrefersDark
        (themeAtLoad stored bodyDark themeIcon))))).currentTheme =
      (toggleThemes n (initializeTheme systemPrefersDark
        (themeAtLoad stored bodyDark themeIcon))).currentTheme := by
  have hinv := toggleThemes_light_or_dark n _
    (initializeTheme_light_or_dark stored bodyDark systemPrefersDark themeIcon hstored)
  refine ⟨hinv, ?_, ?_, fun s => (toggleTheme_fields s).2.1, ?_⟩
  · intro s h
    obtain ⟨h1, h2, _⟩ := toggleTheme_fields s
    rw [h2, h1, h]
    exact ⟨rfl, rfl⟩
  · intro s h
    obtain ⟨h1, h2, _⟩ := toggleTheme_fields s
    rw [h2, h1, h]
    exact ⟨rfl, rfl⟩
  · rw [(toggleTheme_fields _).1, (toggleTheme_fields _).1]
    rcases hinv with h | h <;> rw [h] <;> rfl

/-- The statement above for the stored value `system` and three toggles. -/
theorem theme_light_or_dark_witness :
    (toggleThemes 3 (initializeTheme true (themeAtLoad (some "system") false
        (some "moon")))).currentTheme = "light" ∨
      (toggleThemes 3 (initializeTheme true (themeAtLoad (some "system") false
        (some "moon")))).currentTheme = "dark" :=
  (theme_light_or_dark (some "system") false true (some "moon") 3
    (Or.inr (Or.inr (Or.inr rfl)))).1

/-! ## Which control applies the category -/

/-- With the category `all` the category test lets every plant through. -/
theorem filterPlants_all (toLowerCase : String → String) (q : String) (s : LibraryState) :
    (filterPlants toLowerCase q "all" s).filteredPlants =
      s.allPlants.filter (fun plant => matchesSearch toLowerCase (toLowerCase q) plant) := by
  rw [filterPlants_filteredPlants]
  congr 1
  funext plant
  simp [matchesCategory]

/-- C16: the category a filter run applies depends on the control that started
it.  A search-input event with the text `q`, once its timer fires, runs
`filterPlants(q)` with the default category: `filteredPlants` is the catalog
filtered by `q` alone, whatever category is selected in the selector, which
keeps its value; for the empty text that is the whole catalog.  A
category-change event to `c` runs `filterPlants` with `c` and the current text
of the `library-search` input (the empty text when the page has no such input)
as the query. -/
theorem search_event_uses_default_category (toLowerCase : String → String)
    (hempty : toLowerCase "" = "") (box : SearchBox) (q c : String) (s : PageState) :
    (searchTimerFires toLowerCase (searchInputEvent box q s)).library =
      filterPlants toLowerCase q "all" s.library ∧
    (searchTimerFires toLowerCase (searchInputEvent box q s)).library.filteredPlants =
      s.library.allPlants.filter (fun plant => matchesSearch toLowerCase (toLowerCase q) plant) ∧
    (searchTimerFires toLowerCase (searchInputEvent box q s)).categoryValue = s.categoryValue ∧
    (searchTimerFires toLowerCase (searchInputEvent box "" s)).library.filteredPlants =
      s.library.allPlants ∧
    (∀ text : String, s.librarySearch = some text →
      (categoryChange toLowerCase c s).library = filterPlants toLowerCase text c s.library) ∧
    (s.librarySearch = none →
      (categoryChange toLowerCase c s).library = filterPlants toLowerCase "" c s.library) ∧
    (categoryChange toLowerCase c s).categoryValue = c := by
  have h1 : (searchTimerFires toLowerCase (searchInputEvent box q s)).library =
      filterPlants toLowerCase q "all" s.library := rfl
  refine ⟨h1, ?_, rfl, ?_, ?_, ?_, rfl⟩
  · rw [h1, filterPlants_all]
  · show (filterPlants toLowerCase "" "all" s.library).filteredPlants = _
    exact filterPlants_empty_all toLowerCase hempty s.library
  · intro text h
    simp only [categoryChange, h]
  · intro h
    simp only [categoryChange, h]

/-- The statement above after the category `grain` has been selected. -/
theorem search_event_uses_default_category_witness :
    (categoryChange asciiLower "grain" (pageWith [wheat, potato] "all")).library.filteredPlants =
      [wheat] ∧
    (searchTimerFires asciiLower (searchInputEvent SearchBox.library ""
      (categoryChange asciiLower "grain"
        (pageWith [wheat, potato] "all")))).categoryValue = "grain" ∧
    (searchTimerFires asciiLower (searchInputEvent SearchBox.library ""
      (categoryChange asciiLower "grain"
        (pageWith [wheat, potato] "all")))).library.filteredPlants = [wheat, potato] :=
  ⟨by decide,
    (search_event_uses_default_category asciiLower (by decide) SearchBox.library "" "grain"
      (categoryChange asciiLower "grain" (pageWith [wheat, potato] "all"))).2.2.1,
    (search_event_uses_default_category asciiLower (by decide) SearchBox.library "" "grain"
      (categoryChange asciiLower "grain" (pageWith [wheat, potato] "all"))).2.2.2.1⟩

end AgroSmart
